import Mathlib

/-!
Verification of the command-definition extraction pipeline of
`scripts/parse_meshcore_cli.py` and of the text transformation of
`patches/mesh_cli_enhancements.py`.

Source text is modelled as `List Char`; a source file is a `List (List Char)`
of lines (Python `str.split('\n')`).  The regular expressions used by the
scripts are fixed and simple, so each one is embedded as an explicit
backtracking matcher over `List Char` with the same greedy semantics as
Python `re`.  Python's `str.find`/`str.rfind` are embedded with their
`-1`-for-missing convention as `Int`-valued functions, because the scripts
test `> 0` on the result.
-/

/-! ## Basic Python-string primitives on `List Char` -/

/-- Python `\s` / `str.strip` whitespace (ASCII range). -/
def pySpace (c : Char) : Bool :=
  c == ' ' || c == '\t' || c == '\n' || c == '\r' || c == '\x0b' || c == '\x0c'

/-- Does `cs` start with `pat`? -/
def beginsWith : List Char → List Char → Bool
  | [], _ => true
  | _ :: _, [] => false
  | p :: ps, c :: cs => p == c && beginsWith ps cs

/-- Python `pat in cs` (substring containment). -/
def containsSub : List Char → List Char → Bool
  | [], pat => beginsWith pat []
  | c :: cs, pat => beginsWith pat (c :: cs) || containsSub cs pat

/-- Boolean equality of character lists, evaluated left to right (used to
state the long concrete equalities below; reflected to `Eq` by `eqList_iff`). -/
def eqList : List Char → List Char → Bool
  | [], [] => true
  | a :: as, b :: bs => a == b && eqList as bs
  | _, _ => false

/-- First index at which `pat` occurs in the scanned list, counting from `k`. -/
def pyFindAux (pat : List Char) : List Char → Nat → Option Nat
  | [], k => if beginsWith pat [] then some k else none
  | c :: cs, k => if beginsWith pat (c :: cs) then some k else pyFindAux pat cs k.succ

/-- Python `cs.find(pat)`: first index of `pat`, `-1` if absent. -/
def pyFind (cs pat : List Char) : Int :=
  match pyFindAux pat cs 0 with
  | some k => (k : Int)
  | none => -1

/-- Python `cs.find(pat, start)`: first index `≥ start`, `-1` if absent. -/
def pyFindFrom (cs pat : List Char) (start : Nat) : Int :=
  match pyFindAux pat (cs.drop start) 0 with
  | some k => ((start + k : Nat) : Int)
  | none => -1

/-- Helper for `pyRFind`: remembers the last index at which `pat` occurred. -/
def pyRFindAux (pat : List Char) : List Char → Nat → Option Nat → Option Nat
  | [], k, best => if beginsWith pat [] then some k else best
  | c :: cs, k, best =>
    pyRFindAux pat cs k.succ (if beginsWith pat (c :: cs) then some k else best)

/-- Python `cs.rfind(pat)`: last index of `pat`, `-1` if absent. -/
def pyRFind (cs pat : List Char) : Int :=
  match pyRFindAux pat cs 0 none with
  | some k => (k : Int)
  | none => -1

/-- Python `cs.replace(old, new)`: replace all leftmost non-overlapping
occurrences.  The first list argument is the remaining tail of a matched
occurrence still to be skipped (so the recursion is structural on the
scanned list); the script never calls `replace` with an empty `old`. -/
def pyReplaceAux (old new : List Char) : List Char → List Char → List Char
  | _ :: skipRest, _ :: cs => pyReplaceAux old new skipRest cs
  | _ :: _, [] => []
  | [], [] => []
  | [], c :: cs =>
    if beginsWith old (c :: cs) then
      match old with
      | [] => c :: pyReplaceAux old new [] cs
      | _ :: oldRest => new ++ pyReplaceAux old new oldRest cs
    else
      c :: pyReplaceAux old new [] cs

/-- Python `cs.replace(old, new)`. -/
def pyReplace (cs old new : List Char) : List Char :=
  pyReplaceAux old new [] cs

/-- Python `cs.strip()` restricted to ASCII whitespace. -/
def pyStrip (cs : List Char) : List Char :=
  ((cs.dropWhile pySpace).reverse.dropWhile pySpace).reverse

/-- Python `str.split('\n')` on a character list. -/
def splitOnNl : List Char → List (List Char)
  | [] => [[]]
  | c :: cs =>
    if c = '\n' then [] :: splitOnNl cs
    else
      match splitOnNl cs with
      | l :: ls => (c :: l) :: ls
      | [] => [[c]]

/-! ## Matcher building blocks (embedding the fixed regexes) -/

/-- Consume the exact literal `lit` from the front of the input. -/
def stripLit : List Char → List Char → Option (List Char)
  | [], cs => some cs
  | _ :: _, [] => none
  | p :: ps, c :: cs => if c = p then stripLit ps cs else none

/-- Consume `\s*` (greedy; safe because no pattern continues with whitespace). -/
def dropSpacesPy (cs : List Char) : List Char := cs.dropWhile pySpace

/-- Consume one expected character. -/
def expectChar (ch : Char) : List Char → Option (List Char)
  | c :: cs => if c = ch then some cs else none
  | [] => none

/-- Numeric value of a digit string (as matched by `\d+`). -/
def digitsToNat (ds : List Char) : Nat :=
  ds.foldl (fun n c => n * 10 + (c.toNat - 48)) 0

/-- Which variable the `memcmp` compares: `command` or `config`. -/
inductive CmdVar where
  | command
  | config
deriving DecidableEq

/-- Tail of `cmd_pattern` after the variable name:
`\s*,\s*"([^"]+)"\s*,\s*(\d+)\s*\)`. -/
def cmdTail (v : CmdVar) (r : List Char) : Option (CmdVar × List Char × Nat) :=
  match expectChar ',' (dropSpacesPy r) with
  | none => none
  | some r1 =>
    match expectChar '"' (dropSpacesPy r1) with
    | none => none
    | some r2 =>
      let body := r2.takeWhile (fun c => c != '"')
      let r3 := r2.dropWhile (fun c => c != '"')
      if body.isEmpty then none
      else
        match expectChar '"' r3 with
        | none => none
        | some r4 =>
          match expectChar ',' (dropSpacesPy r4) with
          | none => none
          | some r5 =>
            let r6 := dropSpacesPy r5
            let ds := r6.takeWhile Char.isDigit
            if ds.isEmpty then none
            else
              match expectChar ')' (dropSpacesPy (r6.dropWhile Char.isDigit)) with
              | none => none
              | some _ => some (v, body, digitsToNat ds)

/-- Match `cmd_pattern` =
`memcmp\s*\(\s*(command|config)\s*,\s*"([^"]+)"\s*,\s*(\d+)\s*\)`
anchored at the front of `cs`, with the alternation tried in order
(`command` first, then `config`) as the regex engine does. -/
def cmdMatchAt (cs : List Char) : Option (CmdVar × List Char × Nat) :=
  match stripLit (("memcmp").toList) cs with
  | none => none
  | some r1 =>
    match expectChar '(' (dropSpacesPy r1) with
    | none => none
    | some r2 =>
      let r3 := dropSpacesPy r2
      match stripLit (("command").toList) r3 with
      | some r4 =>
        match cmdTail CmdVar.command r4 with
        | some m => some m
        | none =>
          match stripLit (("config").toList) r3 with
          | some r5 => cmdTail CmdVar.config r5
          | none => none
      | none =>
        match stripLit (("config").toList) r3 with
        | some r5 => cmdTail CmdVar.config r5
        | none => none

/-- `cmd_pattern.search(line)`: leftmost match. -/
def cmdSearch : List Char → Option (CmdVar × List Char × Nat)
  | [] => none
  | c :: cs =>
    match cmdMatchAt (c :: cs) with
    | some m => some m
    | none => cmdSearch cs

/-- Match `fname\s*\(\s*reply\s*,\s*"([^"]*)"` anchored at the front of `cs`,
returning the captured (possibly empty) template. -/
def replyTail (fname : List Char) (cs : List Char) : Option (List Char) :=
  match stripLit fname cs with
  | none => none
  | some r1 =>
    match expectChar '(' (dropSpacesPy r1) with
    | none => none
    | some r2 =>
      match stripLit (("reply").toList) (dropSpacesPy r2) with
      | none => none
      | some r3 =>
        match expectChar ',' (dropSpacesPy r3) with
        | none => none
        | some r4 =>
          match expectChar '"' (dropSpacesPy r4) with
          | none => none
          | some r5 =>
            let body := r5.takeWhile (fun c => c != '"')
            match expectChar '"' (r5.dropWhile (fun c => c != '"')) with
            | none => none
            | some _ => some body

/-- `reply_pattern.search(line)` for `sprintf\s*\(\s*reply\s*,\s*"([^"]*)"`. -/
def replySearch : List Char → Option (List Char)
  | [] => none
  | c :: cs =>
    match replyTail (("sprintf").toList) (c :: cs) with
    | some b => some b
    | none => replySearch cs

/-- `strcpy_pattern.search(line)` for `strcpy\s*\(\s*reply\s*,\s*"([^"]*)"`. -/
def strcpySearch : List Char → Option (List Char)
  | [] => none
  | c :: cs =>
    match replyTail (("strcpy").toList) (c :: cs) with
    | some b => some b
    | none => strcpySearch cs

/-- Match `serial_only_pattern` = `sender_timestamp\s*==\s*0` at the front. -/
def serialMatchAt (cs : List Char) : Bool :=
  match stripLit (("sender_timestamp").toList) cs with
  | none => false
  | some r1 =>
    match expectChar '=' (dropSpacesPy r1) with
    | none => false
    | some r2 =>
      match expectChar '=' r2 with
      | none => false
      | some r3 =>
        match expectChar '0' (dropSpacesPy r3) with
        | some _ => true
        | none => false

/-- `serial_only_pattern.search(line)` as a Boolean. -/
def serialSearch : List Char → Bool
  | [] => false
  | c :: cs => serialMatchAt (c :: cs) || serialSearch cs

/-! ## `clean_response_format`: the four `re.sub` substitutions -/

/-- Match `%0?2?d` at the front (greedy option order: `%02d`, `%0d`, `%2d`, `%d`);
returns the length of the match. -/
def matchIntSpec : List Char → Option Nat
  | c :: rest =>
    if c = '%' then
      match rest with
      | '0' :: '2' :: 'd' :: _ => some 4
      | '0' :: 'd' :: _ => some 3
      | '2' :: 'd' :: _ => some 3
      | 'd' :: _ => some 2
      | _ => none
    else none
  | [] => none

/-- Match `%s` at the front. -/
def matchStrSpec : List Char → Option Nat
  | c :: rest =>
    if c = '%' then
      match rest with
      | 's' :: _ => some 2
      | _ => none
    else none
  | [] => none

/-- Match `%u` at the front. -/
def matchUintSpec : List Char → Option Nat
  | c :: rest =>
    if c = '%' then
      match rest with
      | 'u' :: _ => some 2
      | _ => none
    else none
  | [] => none

/-- Match `\d*f` at the front (maximal digit run, then `f`; no backtracking is
needed because `f` is not a digit); returns the length. -/
def matchDigitsF : List Char → Option Nat
  | c :: rest =>
    if c.isDigit then (matchDigitsF rest).map (· + 1)
    else if c = 'f' then some 1
    else none
  | [] => none

/-- Match `%.?\d*f` at the front with the regex engine's greedy `.?`
(a first branch consuming one non-newline character, falling back to the
empty branch). -/
def matchFloatSpec : List Char → Option Nat
  | c :: rest =>
    if c = '%' then
      match rest with
      | d :: rest2 =>
        if d ≠ '\n' then
          match matchDigitsF rest2 with
          | some n => some (n + 2)
          | none => (matchDigitsF rest).map (· + 1)
        else (matchDigitsF rest).map (· + 1)
      | [] => none
    else none
  | [] => none

/-- One `re.sub` pass: scan left to right, replacing each leftmost match and
continuing after it.  `fuel` bounds the recursion; called with
`fuel = cs.length`, sufficient since all matchers used return lengths `≥ 2`
(every step consumes at least one character). -/
def substAux (m : List Char → Option Nat) (repl : List Char) : Nat → List Char → List Char
  | _, [] => []
  | 0, cs => cs
  | fuel + 1, c :: cs =>
    match m (c :: cs) with
    | some (n + 1) => repl ++ substAux m repl fuel (cs.drop n)
    | _ => c :: substAux m repl fuel cs

/-- `re.sub(pattern, repl, cs)` for the fixed patterns above. -/
def pySub (m : List Char → Option Nat) (repl : List Char) (cs : List Char) : List Char :=
  substAux m repl cs.length cs

/-- Replacement text `{int}`. -/
def intRepl : List Char := ("\x7bint\x7d").toList

/-- Replacement text `{str}`. -/
def strRepl : List Char := ("\x7bstr\x7d").toList

/-- Replacement text `{uint}`. -/
def uintRepl : List Char := ("\x7buint\x7d").toList

/-- Replacement text `{float}`. -/
def floatRepl : List Char := ("\x7bfloat\x7d").toList

/-- `clean_response_format(fmt)`: `None` and the empty string map to `None`
(Python `if not fmt`), otherwise the four substitutions are applied in
source order (`%0?2?d`, `%s`, `%u`, `%.?\d*f`). -/
def clean_response_format : Option (List Char) → Option (List Char)
  | none => none
  | some s =>
    if s.isEmpty then none
    else
      some (pySub matchFloatSpec floatRepl
        (pySub matchUintSpec uintRepl
          (pySub matchStrSpec strRepl
            (pySub matchIntSpec intRepl s))))

/-! ## The command-descriptor data model -/

/-- One inferred parameter: `{"name": ..., "type": ...}`. -/
structure Param where
  name : List Char
  type : List Char
deriving DecidableEq

/-- One command descriptor as appended by `parse_commands`. -/
structure Command where
  name : List Char
  category : List Char
  params : List Param
  response_format : Option (List Char)
  description : List Char
  serial_only : Bool
  has_param : Bool
deriving DecidableEq

/-- `classify_command(cmd)`: ordered prefix/membership classification. -/
def classify_command (cmd : List Char) : List Char :=
  if beginsWith (("get ").toList) cmd then ("get").toList
  else if beginsWith (("set ").toList) cmd then ("set").toList
  else if beginsWith (("log").toList) cmd then ("logging").toList
  else if beginsWith (("gps").toList) cmd then ("gps").toList
  else if beginsWith (("sensor").toList) cmd then ("sensor").toList
  else if beginsWith (("bridge").toList) cmd then ("bridge").toList
  else if beginsWith (("stats").toList) cmd then ("stats").toList
  else if [("neighbors").toList, ("neighbor.remove").toList].contains cmd then
    ("neighbor").toList
  else if [("reboot").toList, ("advert").toList, ("clock").toList,
      ("clock sync").toList, ("time").toList, ("ver").toList, ("board").toList,
      ("erase").toList, ("start ota").toList, ("clear stats").toList,
      ("password").toList].contains cmd then
    ("system").toList
  else if cmd = ("tempradio").toList then ("radio").toList
  else ("other").toList

/-! ## Fixed tables and patch-script text blocks

The following string definitions are byte-for-byte the Python string
literals of the two scripts (brace characters written as `\x7b`/`\x7d`). -/

def old_reboot : List Char :=
  ("def _cmd_reboot(self) -> str:\n        \"\"\"Reboot the repeater process.\"\"\"\n        logger.warning(\"Reboot command received - not implemented (use systemctl restart)\")\n        return \"Error: Use systemctl restart pymc-repeater\"").toList

def new_reboot : List Char :=
  ("def _cmd_reboot(self) -> str:\n        \"\"\"Reboot the repeater process via systemctl.\"\"\"\n        try:\n            import asyncio\n            \n            async def delayed_restart():\n                \"\"\"Delay restart to let CLI response send first.\"\"\"\n                await asyncio.sleep(0.5)\n                subprocess.Popen(\n                    [\"systemctl\", \"restart\", \"pymc-repeater\"],\n                    stdout=subprocess.DEVNULL,\n                    stderr=subprocess.DEVNULL,\n                    start_new_session=True\n                )\n            \n            asyncio.create_task(delayed_restart())\n            logger.info(\"Service restart scheduled\")\n            return \"OK - rebooting...\"\n        except Exception as e:\n            logger.error(f\"Failed to schedule restart: \x7be\x7d\")\n            return f\"Error: \x7be\x7d\"").toList

def old_clear_stats : List Char :=
  ("def _cmd_clear_stats(self) -> str:\n        \"\"\"Clear statistics.\"\"\"\n        # TODO: Implement stats clearing\n        return \"Error: Not yet implemented\"").toList

def new_clear_stats : List Char :=
  ("def _cmd_clear_stats(self) -> str:\n        \"\"\"Clear statistics counters.\"\"\"\n        if not self.storage_handler:\n            return \"Error: Storage not available\"\n        \n        try:\n            # Clear packet stats if method exists\n            if hasattr(self.storage_handler, 'clear_stats'):\n                self.storage_handler.clear_stats()\n                logger.info(\"Statistics cleared via CLI\")\n                return \"OK - stats reset\"\n            else:\n                # Fallback: just log that we would clear\n                logger.info(\"clear stats requested (storage_handler.clear_stats not available)\")\n                return \"OK - stats reset\"\n        except Exception as e:\n            logger.error(f\"Failed to clear stats: \x7be\x7d\")\n            return f\"Error: \x7be\x7d\"").toList

def old_neighbor_remove : List Char :=
  ("def _cmd_neighbor_remove(self, command: str) -> str:\n        \"\"\"Remove a neighbor.\"\"\"\n        pubkey_hex = command[16:].strip()\n        \n        if not pubkey_hex:\n            return \"ERR: Missing pubkey\"\n        \n        # TODO: Remove neighbor from routing table\n        logger.info(f\"neighbor.remove: \x7bpubkey_hex\x7d\")\n        return \"Error: Not yet implemented\"").toList

def new_neighbor_remove : List Char :=
  ("def _cmd_neighbor_remove(self, command: str) -> str:\n        \"\"\"Remove a neighbor by pubkey prefix.\"\"\"\n        pubkey_hex = command[16:].strip()\n        \n        if not pubkey_hex:\n            return \"ERR: Missing pubkey\"\n        \n        if not self.storage_handler:\n            return \"Error: Storage not available\"\n        \n        try:\n            # Try to remove neighbor if method exists\n            if hasattr(self.storage_handler, 'remove_neighbor'):\n                removed = self.storage_handler.remove_neighbor(pubkey_hex)\n                if removed:\n                    logger.info(f\"Removed neighbor: \x7bpubkey_hex\x7d\")\n                    return \"OK\"\n                else:\n                    return f\"Error: Neighbor \x7bpubkey_hex\x7d not found\"\n            else:\n                # Fallback: check if neighbor exists and log\n                neighbors = self.storage_handler.get_neighbors() if hasattr(self.storage_handler, 'get_neighbors') else \x7b\x7d\n                matching = [k for k in neighbors.keys() if k.startswith(pubkey_hex)]\n                if matching:\n                    logger.info(f\"neighbor.remove requested for \x7bpubkey_hex\x7d (remove_neighbor not available)\")\n                    return f\"OK - marked for removal: \x7bmatching[0][:16]\x7d\"\n                else:\n                    return f\"Error: Neighbor \x7bpubkey_hex\x7d not found\"\n        except Exception as e:\n            logger.error(f\"Failed to remove neighbor: \x7be\x7d\")\n            return f\"Error: \x7be\x7d\"").toList

def old_tempradio : List Char :=
  ("def _cmd_tempradio(self, command: str) -> str:\n        \"\"\"Apply temporary radio parameters.\"\"\"\n        # Format: tempradio \x7bfreq\x7d \x7bbw\x7d \x7bsf\x7d \x7bcr\x7d \x7btimeout_mins\x7d\n        parts = command[10:].split()\n        \n        if len(parts) < 5:\n            return \"Error: Expected freq bw sf cr timeout_mins\"\n        \n        try:\n            freq = float(parts[0])\n            bw = float(parts[1])\n            sf = int(parts[2])\n            cr = int(parts[3])\n            timeout_mins = int(parts[4])\n            \n            # Validate\n            if not (300.0 <= freq <= 2500.0):\n                return \"Error: invalid frequency\"\n            if not (7.0 <= bw <= 500.0):\n                return \"Error: invalid bandwidth\"\n            if not (5 <= sf <= 12):\n                return \"Error: invalid spreading factor\"\n            if not (5 <= cr <= 8):\n                return \"Error: invalid coding rate\"\n            if timeout_mins <= 0:\n                return \"Error: invalid timeout\"\n            \n            # TODO: Apply temporary radio parameters\n            logger.info(f\"tempradio: \x7bfreq\x7dMHz \x7bbw\x7dkHz SF\x7bsf\x7d CR4/\x7bcr\x7d for \x7btimeout_mins\x7dmin\")\n            return \"Error: Not yet implemented\"\n            \n        except ValueError:\n            return \"Error, invalid params\"").toList

def new_tempradio : List Char :=
  ("def _cmd_tempradio(self, command: str) -> str:\n        \"\"\"Apply temporary radio parameters with auto-revert.\n        \n        Format: tempradio \x7bfreq\x7d \x7bbw\x7d \x7bsf\x7d \x7bcr\x7d \x7btimeout_mins\x7d\n        \n        Saves current radio config, applies new params, schedules revert.\n        After timeout_mins, restores original config and restarts service.\n        \"\"\"\n        parts = command[10:].split()\n        \n        if len(parts) < 5:\n            return \"Error: Expected freq bw sf cr timeout_mins\"\n        \n        try:\n            freq = float(parts[0])\n            bw = float(parts[1])\n            sf = int(parts[2])\n            cr = int(parts[3])\n            timeout_mins = int(parts[4])\n            \n            # Validate (MeshCore ranges)\n            if not (300.0 <= freq <= 2500.0):\n                return \"Error: invalid frequency\"\n            if not (7.0 <= bw <= 500.0):\n                return \"Error: invalid bandwidth\"\n            if not (5 <= sf <= 12):\n                return \"Error: invalid spreading factor\"\n            if not (5 <= cr <= 8):\n                return \"Error: invalid coding rate\"\n            if timeout_mins <= 0 or timeout_mins > 1440:\n                return \"Error: timeout must be 1-1440 minutes\"\n            \n            # Cancel any existing tempradio task\n            if self._tempradio_task and not self._tempradio_task.done():\n                self._tempradio_task.cancel()\n                logger.info(\"Cancelled previous tempradio timer\")\n            \n            # Save original config (only if not already saved)\n            if self._tempradio_original_config is None:\n                self._tempradio_original_config = \x7b\n                    'frequency': self.config.get('radio', \x7b\x7d).get('frequency'),\n                    'bandwidth': self.config.get('radio', \x7b\x7d).get('bandwidth'),\n                    'spreading_factor': self.config.get('radio', \x7b\x7d).get('spreading_factor'),\n                    'coding_rate': self.config.get('radio', \x7b\x7d).get('coding_rate'),\n                \x7d\n                logger.info(f\"Saved original radio config: \x7bself._tempradio_original_config\x7d\")\n            \n            # Apply new config\n            if 'radio' not in self.config:\n                self.config['radio'] = \x7b\x7d\n            \n            self.config['radio']['frequency'] = int(freq * 1_000_000)  # MHz to Hz\n            self.config['radio']['bandwidth'] = int(bw * 1000)  # kHz to Hz\n            self.config['radio']['spreading_factor'] = sf\n            self.config['radio']['coding_rate'] = cr\n            self.save_config()\n            \n            logger.info(f\"Applied tempradio: \x7bfreq\x7dMHz \x7bbw\x7dkHz SF\x7bsf\x7d CR4/\x7bcr\x7d for \x7btimeout_mins\x7dmin\")\n            \n            # Schedule revert\n            import asyncio\n            \n            async def revert_radio():\n                \"\"\"Revert to original radio config after timeout.\"\"\"\n                try:\n                    await asyncio.sleep(timeout_mins * 60)\n                    \n                    # Restore original config\n                    if self._tempradio_original_config:\n                        for key, value in self._tempradio_original_config.items():\n                            if value is not None:\n                                self.config['radio'][key] = value\n                        self.save_config()\n                        self._tempradio_original_config = None\n                        \n                        logger.info(\"tempradio timeout - restored original config, restarting service\")\n                        \n                        # Restart service to apply original config\n                        subprocess.Popen(\n                            [\"systemctl\", \"restart\", \"pymc-repeater\"],\n                            stdout=subprocess.DEVNULL,\n                            stderr=subprocess.DEVNULL,\n                            start_new_session=True\n                        )\n                except asyncio.CancelledError:\n                    logger.info(\"tempradio revert cancelled\")\n                except Exception as e:\n                    logger.error(f\"tempradio revert failed: \x7be\x7d\")\n            \n            self._tempradio_task = asyncio.create_task(revert_radio())\n            \n            return f\"OK - temp params for \x7btimeout_mins\x7d mins\"\n            \n        except ValueError:\n            return \"Error, invalid params\"").toList

def old_stats_routing : List Char :=
  ("# Statistics commands\n        elif command.startswith(\"stats-\"):\n            return \"Error: Stats commands not fully implemented yet\"").toList

def new_stats_routing : List Char :=
  ("# Statistics commands\n        elif command == \"stats-packets\":\n            return self._cmd_stats_packets()\n        elif command == \"stats-radio\":\n            return self._cmd_stats_radio()\n        elif command == \"stats-core\":\n            return self._cmd_stats_core()\n        elif command.startswith(\"stats-\"):\n            return f\"Unknown stats command: \x7bcommand\x7d\"").toList

def old_ver_routing : List Char :=
  ("elif command == \"ver\":\n            return self._cmd_version()").toList

def new_ver_routing : List Char :=
  ("elif command == \"ver\":\n            return self._cmd_version()\n        elif command == \"board\":\n            return self._cmd_board()").toList

def stats_methods : List Char :=
  ("\n    # ==================== Statistics Commands (pymc_console) ====================\n    \n    def _cmd_stats_packets(self) -> str:\n        \"\"\"Show packet statistics (MeshCore parity).\"\"\"\n        if not self.storage_handler:\n            return \"Error: Storage not available\"\n        \n        try:\n            # Get stats from storage if available\n            stats = \x7b\x7d\n            if hasattr(self.storage_handler, 'get_packet_stats'):\n                stats = self.storage_handler.get_packet_stats()\n            elif hasattr(self.storage_handler, 'get_stats'):\n                stats = self.storage_handler.get_stats()\n            \n            rx = stats.get('rx_count', stats.get('received', 0))\n            tx = stats.get('tx_count', stats.get('transmitted', 0))\n            fwd = stats.get('forwarded_count', stats.get('forwarded', 0))\n            drop = stats.get('dropped_count', stats.get('dropped', 0))\n            \n            return f\"rx: \x7brx\x7d\\ntx: \x7btx\x7d\\nfwd: \x7bfwd\x7d\\ndrop: \x7bdrop\x7d\"\n        except Exception as e:\n            logger.error(f\"stats-packets error: \x7be\x7d\")\n            return f\"Error: \x7be\x7d\"\n    \n    def _cmd_stats_radio(self) -> str:\n        \"\"\"Show radio statistics (MeshCore parity).\"\"\"\n        radio = self.config.get('radio', \x7b\x7d)\n        \n        freq_hz = radio.get('frequency', 915000000)\n        bw_hz = radio.get('bandwidth', 125000)\n        sf = radio.get('spreading_factor', 7)\n        cr = radio.get('coding_rate', 5)\n        tx_power = radio.get('tx_power', 20)\n        \n        freq_mhz = freq_hz / 1_000_000.0\n        bw_khz = bw_hz / 1_000.0\n        \n        # Get noise floor if available\n        noise = \"?\"\n        if self.storage_handler and hasattr(self.storage_handler, 'get_noise_floor'):\n            noise = self.storage_handler.get_noise_floor()\n        \n        return (\n            f\"freq: \x7bfreq_mhz:.3f\x7d MHz\\n\"\n            f\"bw: \x7bbw_khz:.0f\x7d kHz\\n\"\n            f\"sf: \x7bsf\x7d\\n\"\n            f\"cr: \x7bcr\x7d\\n\"\n            f\"tx_pwr: \x7btx_power\x7d dBm\\n\"\n            f\"noise: \x7bnoise\x7d dBm\"\n        )\n    \n    def _cmd_stats_core(self) -> str:\n        \"\"\"Show core statistics (MeshCore parity).\"\"\"\n        import time\n        \n        # Basic uptime (process start time not tracked, use placeholder)\n        uptime_str = \"unknown\"\n        \n        # Get neighbor count\n        neighbor_count = 0\n        if self.storage_handler and hasattr(self.storage_handler, 'get_neighbors'):\n            neighbors = self.storage_handler.get_neighbors()\n            neighbor_count = len(neighbors) if neighbors else 0\n        \n        # Get stats\n        stats = \x7b\x7d\n        if self.storage_handler:\n            if hasattr(self.storage_handler, 'get_stats'):\n                stats = self.storage_handler.get_stats()\n        \n        rx_hr = stats.get('rx_per_hour', '?')\n        fwd_hr = stats.get('forwarded_per_hour', '?')\n        airtime = stats.get('utilization_percent', '?')\n        \n        return (\n            f\"uptime: \x7buptime_str\x7d\\n\"\n            f\"rx/hr: \x7brx_hr\x7d\\n\"\n            f\"fwd/hr: \x7bfwd_hr\x7d\\n\"\n            f\"neighbors: \x7bneighbor_count\x7d\\n\"\n            f\"airtime: \x7bairtime\x7d%\"\n        )\n    \n    def _cmd_board(self) -> str:\n        \"\"\"Show board/platform information (MeshCore parity).\"\"\"\n        import platform\n        return f\"pyMC_Repeater (\x7bplatform.system()\x7d/\x7bplatform.machine()\x7d)\"\n").toList

def init_literal : List Char :=
  ("self.repeater_config = config.get('repeater', \x7b\x7d)").toList

def init_added : List Char :=
  ("\n        \n        # pymc_console: tempradio auto-revert state\n        self._tempradio_task = None\n        self._tempradio_original_config = None").toList

def descriptions : List (List Char × List Char) := [
  (("reboot").toList, ("Reboot the device").toList),
  (("advert").toList, ("Send self advertisement").toList),
  (("clock").toList, ("Display current time").toList),
  (("clock sync").toList, ("Sync clock from sender timestamp").toList),
  (("time").toList, ("Set time to epoch seconds").toList),
  (("ver").toList, ("Show firmware version and build date").toList),
  (("board").toList, ("Show board/manufacturer name").toList),
  (("erase").toList, ("Erase filesystem (serial only)").toList),
  (("start ota").toList, ("Start OTA firmware update").toList),
  (("clear stats").toList, ("Reset statistics counters").toList),
  (("password").toList, ("Change admin password").toList),
  (("get af").toList, ("Get airtime factor").toList),
  (("get name").toList, ("Get node name").toList),
  (("get repeat").toList, ("Get repeat/forward status (on/off)").toList),
  (("get lat").toList, ("Get latitude").toList),
  (("get lon").toList, ("Get longitude").toList),
  (("get radio").toList, ("Get radio params (freq,bw,sf,cr)").toList),
  (("get freq").toList, ("Get frequency (MHz)").toList),
  (("get tx").toList, ("Get TX power (dBm)").toList),
  (("get public.key").toList, ("Get public key (hex)").toList),
  (("get prv.key").toList, ("Get private key (serial only)").toList),
  (("get role").toList, ("Get device role").toList),
  (("get rxdelay").toList, ("Get RX delay base").toList),
  (("get txdelay").toList, ("Get TX delay factor").toList),
  (("get direct.txdelay").toList, ("Get direct TX delay factor").toList),
  (("get flood.max").toList, ("Get max flood hops").toList),
  (("get guest.password").toList, ("Get guest password").toList),
  (("get allow.read.only").toList, ("Get read-only access setting").toList),
  (("get advert.interval").toList, ("Get local advert interval (minutes)").toList),
  (("get flood.advert.interval").toList, ("Get flood advert interval (hours)").toList),
  (("get int.thresh").toList, ("Get interference threshold").toList),
  (("get agc.reset.interval").toList, ("Get AGC reset interval (seconds)").toList),
  (("get multi.acks").toList, ("Get multi-ack setting").toList),
  (("get adc.multiplier").toList, ("Get ADC multiplier for battery").toList),
  (("get bridge.type").toList, ("Get bridge type (rs232/espnow/none)").toList),
  (("get bridge.enabled").toList, ("Get bridge enabled status").toList),
  (("get bridge.delay").toList, ("Get bridge delay (ms)").toList),
  (("get bridge.source").toList, ("Get bridge packet source").toList),
  (("get bridge.baud").toList, ("Get bridge baud rate").toList),
  (("get bridge.channel").toList, ("Get bridge channel (ESP-NOW)").toList),
  (("get bridge.secret").toList, ("Get bridge encryption secret").toList),
  (("set af").toList, ("Set airtime factor (0-9)").toList),
  (("set name").toList, ("Set node name").toList),
  (("set repeat").toList, ("Set repeat/forward (on/off)").toList),
  (("set lat").toList, ("Set latitude").toList),
  (("set lon").toList, ("Set longitude").toList),
  (("set radio").toList, ("Set radio params (freq bw sf cr)").toList),
  (("set freq").toList, ("Set frequency MHz (serial only, reboot required)").toList),
  (("set tx").toList, ("Set TX power (dBm)").toList),
  (("set prv.key").toList, ("Set private key (serial only)").toList),
  (("set rxdelay").toList, ("Set RX delay base").toList),
  (("set txdelay").toList, ("Set TX delay factor").toList),
  (("set direct.txdelay").toList, ("Set direct TX delay factor").toList),
  (("set flood.max").toList, ("Set max flood hops (0-64)").toList),
  (("set guest.password").toList, ("Set guest password").toList),
  (("set allow.read.only").toList, ("Set read-only access (on/off)").toList),
  (("set advert.interval").toList, ("Set local advert interval (60-240 min, 0=off)").toList),
  (("set flood.advert.interval").toList, ("Set flood advert interval (3-48 hours, 0=off)").toList),
  (("set int.thresh").toList, ("Set interference threshold").toList),
  (("set agc.reset.interval").toList, ("Set AGC reset interval (seconds, rounded to 4)").toList),
  (("set multi.acks").toList, ("Set multi-ack (0/1)").toList),
  (("set adc.multiplier").toList, ("Set ADC multiplier").toList),
  (("set bridge.enabled").toList, ("Enable/disable bridge").toList),
  (("set bridge.delay").toList, ("Set bridge delay (0-10000 ms)").toList),
  (("set bridge.source").toList, ("Set bridge source (rx/tx)").toList),
  (("set bridge.baud").toList, ("Set bridge baud (9600-115200)").toList),
  (("set bridge.channel").toList, ("Set bridge channel (1-14)").toList),
  (("set bridge.secret").toList, ("Set bridge encryption secret").toList),
  (("neighbors").toList, ("List neighbors").toList),
  (("neighbor.remove").toList, ("Remove neighbor by pubkey").toList),
  (("tempradio").toList, ("Apply temporary radio params (freq bw sf cr timeout_mins)").toList),
  (("log").toList, ("Dump log file (serial only)").toList),
  (("log start").toList, ("Start packet logging").toList),
  (("log stop").toList, ("Stop packet logging").toList),
  (("log erase").toList, ("Erase log file").toList),
  (("stats-packets").toList, ("Show packet statistics (serial only)").toList),
  (("stats-radio").toList, ("Show radio statistics (serial only)").toList),
  (("stats-core").toList, ("Show core statistics (serial only)").toList),
  (("sensor get").toList, ("Get sensor/custom variable value").toList),
  (("sensor set").toList, ("Set sensor/custom variable value").toList),
  (("sensor list").toList, ("List all sensor/custom variables").toList),
  (("gps").toList, ("Show GPS status").toList),
  (("gps on").toList, ("Enable GPS").toList),
  (("gps off").toList, ("Disable GPS").toList),
  (("gps sync").toList, ("Sync time from GPS").toList),
  (("gps setloc").toList, ("Set node location from GPS").toList),
  (("gps advert").toList, ("Get/set GPS advert location policy").toList)
]

def serial_only_list : List (List Char) := [
  ("get prv.key").toList,
  ("set prv.key").toList,
  ("erase").toList,
  ("log").toList,
  ("stats-packets").toList,
  ("stats-radio").toList,
  ("stats-core").toList,
  ("set freq").toList
]

/-- `is_serial_only_command(cmd)`: membership in the fixed exclusion list. -/
def is_serial_only_command (cmd : List Char) : Bool :=
  serial_only_list.contains cmd

/-- `generate_description(cmd)`: table lookup with the
`"Execute {cmd} command"` fallback. -/
def generate_description (cmd : List Char) : List Char :=
  match descriptions.lookup cmd with
  | some d => d
  | none => ("Execute ").toList ++ cmd ++ (" command").toList

/-! ## The lookahead window scan -/

/-- Python truthiness of the `response_format` variable
(`None` and `""` are falsy). -/
def isFalsy : Option (List Char) → Bool
  | none => true
  | some s => s.isEmpty

/-- One line of the lookahead body (source lines 140-157): the two reply
checks (`sprintf` then `strcpy`, each guarded by `not response_format`)
followed by the `atof`/`atoi`/`strncpy` `if`/`elif` chain. -/
def stepContext (acc : Option (List Char) × List Param) (line : List Char) :
    Option (List Char) × List Param :=
  let fmt1 :=
    match replySearch line with
    | some cap => if isFalsy acc.1 then some cap else acc.1
    | none => acc.1
  let fmt2 :=
    match strcpySearch line with
    | some cap => if isFalsy fmt1 then some cap else fmt1
    | none => fmt1
  let params :=
    if containsSub line (("atof(").toList) then
      acc.2 ++ [⟨("value").toList, ("float").toList⟩]
    else if containsSub line (("atoi(").toList) || containsSub line (("_atoi(").toList) then
      acc.2 ++ [⟨("value").toList, ("int").toList⟩]
    else if containsSub line (("strncpy(").toList) ||
        containsSub line (("StrHelper::strncpy(").toList) then
      acc.2 ++ [⟨("value").toList, ("string").toList⟩]
    else acc.2
  (fmt2, params)

/-- Iterate `stepContext` over at most `n` lines. -/
def lookaheadAux : Nat → List (List Char) → (Option (List Char) × List Param) →
    Option (List Char) × List Param
  | 0, _, acc => acc
  | _ + 1, [], acc => acc
  | n + 1, l :: rest, acc => lookaheadAux n rest (stepContext acc l)

/-- The lookahead scan `for j in range(i, min(i + 15, len(lines)))` starting
from `response_format = None`, `params = []`. -/
def lookahead (lines : List (List Char)) (i : Nat) : Option (List Char) × List Param :=
  lookaheadAux 15 (lines.drop i) (none, [])

/-- Build the descriptor appended for a `cmd_pattern` match (source lines
114-172): derive the full name and category from the matched variable and the
get/set context, run the lookahead, and fill the record fields. -/
def mkCommand (lines : List (List Char)) (i : Nat)
    (inGet inSet serialCtx : Bool) (v : CmdVar) (cmdStr : List Char)
    (cmdLen : Nat) : Command :=
  let fullCmd :=
    match v with
    | CmdVar.config =>
      if inGet then ("get ").toList ++ pyStrip cmdStr
      else if inSet then ("set ").toList ++ pyStrip cmdStr
      else pyStrip cmdStr
    | CmdVar.command => pyStrip cmdStr
  let category :=
    match v with
    | CmdVar.config =>
      if inGet then ("get").toList
      else if inSet then ("set").toList
      else ("config").toList
    | CmdVar.command => classify_command (pyStrip cmdStr)
  let la := lookahead lines i
  { name := fullCmd
    category := category
    params := la.2
    response_format := clean_response_format la.1
    description := generate_description fullCmd
    serial_only := serialCtx || is_serial_only_command fullCmd
    has_param := cmdStr.contains ' ' || !la.2.isEmpty }

/-! ## The line scan of `parse_commands` -/

/-- Scanning context: the get/set block flags, the (dead, but tracked)
`current_category` variable, and the serial-only flag. -/
structure Ctx where
  inGet : Bool
  inSet : Bool
  curCat : Option (List Char)
  serialCtx : Bool
deriving DecidableEq

/-- Full scan state: context plus the accumulated descriptor list. -/
structure ScanState where
  ctx : Ctx
  commands : List Command
deriving DecidableEq

/-- Initial context (`in_get_block = in_set_block = False`,
`current_category = None`, `serial_only_context = False`). -/
def initCtx : Ctx := ⟨false, false, none, false⟩

/-- Initial scan state. -/
def initState : ScanState := ⟨initCtx, []⟩

/-- Source line 92-93: a `sender_timestamp == 0` match sets the serial flag. -/
def ctxStep1 (line : List Char) (ctx : Ctx) : Ctx :=
  if serialSearch line then { ctx with serialCtx := true } else ctx

/-- Source lines 96-109: the get/set block-detection `if`/`elif` chain. -/
def ctxStep2 (line : List Char) (ctx : Ctx) : Ctx :=
  if containsSub line (("GET commands").toList) ||
      containsSub line (("memcmp(command, \"get \", 4)").toList) then
    { ctx with inGet := true, inSet := false, curCat := some (("get").toList) }
  else if containsSub line (("SET commands").toList) ||
      containsSub line (("memcmp(command, \"set \", 4)").toList) then
    { ctx with inSet := true, inGet := false, curCat := some (("set").toList) }
  else if ctx.inGet && containsSub line (("\x7d else if (memcmp(command").toList) &&
      !containsSub line (("get ").toList) then
    { ctx with inGet := false, curCat := none }
  else if ctx.inSet && containsSub line (("\x7d else if (memcmp(command").toList) &&
      !containsSub line (("set ").toList) then
    { ctx with inSet := false, curCat := none }
  else ctx

/-- Context updates that precede the command-match attempt on a line. -/
def ctxMid (line : List Char) (ctx : Ctx) : Ctx :=
  ctxStep2 line (ctxStep1 line ctx)

/-- Source lines 175-176: a line whose stripped form starts with `} else`
resets the serial-only flag (after the match processing). -/
def ctxStep4 (line : List Char) (ctx : Ctx) : Ctx :=
  if beginsWith (("\x7d else").toList) (pyStrip line) then
    { ctx with serialCtx := false }
  else ctx

/-- Process one line of the main `while` loop body. -/
def stepLine (lines : List (List Char)) (i : Nat) (line : List Char)
    (st : ScanState) : ScanState :=
  let ctx1 := ctxMid line st.ctx
  let cmds :=
    match cmdSearch line with
    | some (v, s, n) =>
      let cmd := mkCommand lines i ctx1.inGet ctx1.inSet ctx1.serialCtx v s n
      if st.commands.any (fun c0 => c0.name == cmd.name) then st.commands
      else st.commands ++ [cmd]
    | none => st.commands
  ⟨ctxStep4 line ctx1, cmds⟩

/-- The main loop: `rest` is the suffix of `lines` from index `i` on. -/
def parseLoop (lines : List (List Char)) :
    List (List Char) → Nat → ScanState → ScanState
  | [], _, st => st
  | line :: rest, i, st => parseLoop lines rest (i + 1) (stepLine lines i line st)

/-- `parse_commands` on an already-split line list. -/
def parse_commands (lines : List (List Char)) : List Command :=
  (parseLoop lines lines 0 initState).commands

/-- `parse_commands(cpp_source)` on raw source text. -/
def parseSource (src : String) : List Command :=
  parse_commands (splitOnNl src.toList)

/-! ## `parse_prefs_struct` -/

/-- Field record of the NodePrefs mapping: `{'type': ..., 'array_size': ...}`. -/
structure FieldInfo where
  type : List Char
  array_size : Option Nat
deriving DecidableEq

/-- Match `struct NodePrefs\s*\{([^}]+)\}` anchored at the front,
returning the captured body. -/
def structMatchAt (cs : List Char) : Option (List Char) :=
  match stripLit (("struct NodePrefs").toList) cs with
  | none => none
  | some r1 =>
    match expectChar '\x7b' (dropSpacesPy r1) with
    | none => none
    | some r2 =>
      let body := r2.takeWhile (fun c => c != '\x7d')
      if body.isEmpty then none
      else
        match expectChar '\x7d' (r2.dropWhile (fun c => c != '\x7d')) with
        | none => none
        | some _ => some body

/-- `re.search` of the struct pattern: leftmost match. -/
def structSearch : List Char → Option (List Char)
  | [] => none
  | c :: cs =>
    match structMatchAt (c :: cs) with
    | some b => some b
    | none => structSearch cs

/-- Python `\w` on the ASCII header text. -/
def isWordChar (c : Char) : Bool := c.isAlpha || c.isDigit || c == '_'

/-- Match one field alternative:
`ty\s+(\w+)(?:\[(\d+)\])?`, returning the parsed entry and the rest. -/
def fieldTail (ty : List Char) (cs : List Char) :
    Option ((List Char × FieldInfo) × List Char) :=
  match stripLit ty cs with
  | none => none
  | some r1 =>
    if (r1.takeWhile pySpace).isEmpty then none
    else
      let r2 := r1.dropWhile pySpace
      let w := r2.takeWhile isWordChar
      if w.isEmpty then none
      else
        let r3 := r2.dropWhile isWordChar
        match expectChar '[' r3 with
        | some r4 =>
          let ds := r4.takeWhile Char.isDigit
          if ds.isEmpty then some ((w, ⟨ty, none⟩), r3)
          else
            match expectChar ']' (r4.dropWhile Char.isDigit) with
            | some r5 => some ((w, ⟨ty, some (digitsToNat ds)⟩), r5)
            | none => some ((w, ⟨ty, none⟩), r3)
        | none => some ((w, ⟨ty, none⟩), r3)

/-- Match `field_pattern` =
`(float|double|char|uint8_t|uint16_t|uint32_t|int)\s+(\w+)(?:\[(\d+)\])?`
anchored at the front, alternatives tried in source order. -/
def fieldMatchAt (cs : List Char) : Option ((List Char × FieldInfo) × List Char) :=
  fieldTail (("float").toList) cs <|> fieldTail (("double").toList) cs <|>
  fieldTail (("char").toList) cs <|> fieldTail (("uint8_t").toList) cs <|>
  fieldTail (("uint16_t").toList) cs <|> fieldTail (("uint32_t").toList) cs <|>
  fieldTail (("int").toList) cs

/-- `field_pattern.finditer(body)`: scan left to right, continuing after each
match.  `fuel` bounds the recursion (every step consumes at least one
character, so `body.length` suffices). -/
def fieldScan : Nat → List Char → List (List Char × FieldInfo)
  | 0, _ => []
  | _ + 1, [] => []
  | fuel + 1, c :: cs =>
    match fieldMatchAt (c :: cs) with
    | some (kv, rest) => kv :: fieldScan fuel rest
    | none => fieldScan fuel cs

/-- Python-dict insertion: replace in place if the key exists, else append. -/
def upsert : List (List Char × FieldInfo) → List Char → FieldInfo →
    List (List Char × FieldInfo)
  | [], k, v => [(k, v)]
  | (k0, v0) :: rest, k, v =>
    if k0 = k then (k, v) :: rest else (k0, v0) :: upsert rest k v

/-- `parse_prefs_struct(header_source)`: empty mapping when the `NodePrefs`
aggregate is not found, otherwise the field entries in match order with
last-occurrence-wins values. -/
def parse_prefs_struct (src : List Char) : List (List Char × FieldInfo) :=
  match structSearch src with
  | none => []
  | some body =>
    (fieldScan body.length body).foldl (fun m kv => upsert m kv.1 kv.2) []

/-! ## The patch-script content transformation (`patch_file`)

Each `patchN` mirrors the corresponding `PATCH N` block of
`mesh_cli_enhancements.py`, acting on the file content only (the path I/O and
the `patches_applied` reporting have no effect on the content). -/

/-- PATCH 1: insert the `subprocess` import after `import time` in the import
section (the content before the first `\nlogger = `), when not present. -/
def patch1 (c : List Char) : List Char :=
  if containsSub c (("import subprocess").toList) then c
  else
    let loggerPos := pyFind c (("\nlogger = ").toList)
    if loggerPos > 0 then
      let sec := c.take loggerPos.toNat
      let rest := c.drop loggerPos.toNat
      if containsSub sec (("import subprocess").toList) then c
      else
        pyReplace sec (("import time\n").toList)
          (("import time\nimport subprocess  # pymc_console: for systemctl commands\n").toList)
          ++ rest
    else c

/-- PATCH 2: `re.sub` whose pattern is the fully-escaped literal
`init_literal` with the whole match as group 1 and replacement
`\1` + `init_added`; equivalently, replace every occurrence of the literal by
itself followed by the added lines. -/
def patch2 (c : List Char) : List Char :=
  if containsSub c (("_tempradio_task").toList) then c
  else pyReplace c init_literal (init_literal ++ init_added)

/-- PATCH 3: replace the old `_cmd_reboot` implementation. -/
def patch3 (c : List Char) : List Char :=
  if containsSub c old_reboot then pyReplace c old_reboot new_reboot else c

/-- PATCH 4: replace the old `_cmd_clear_stats` implementation. -/
def patch4 (c : List Char) : List Char :=
  if containsSub c old_clear_stats then pyReplace c old_clear_stats new_clear_stats
  else c

/-- PATCH 5: replace the old `_cmd_neighbor_remove` implementation. -/
def patch5 (c : List Char) : List Char :=
  if containsSub c old_neighbor_remove then
    pyReplace c old_neighbor_remove new_neighbor_remove
  else c

/-- PATCH 6: replace the old `_cmd_tempradio` implementation. -/
def patch6 (c : List Char) : List Char :=
  if containsSub c old_tempradio then pyReplace c old_tempradio new_tempradio
  else c

/-- PATCH 7: replace the old stats-command routing. -/
def patch7 (c : List Char) : List Char :=
  if containsSub c old_stats_routing then
    pyReplace c old_stats_routing new_stats_routing
  else c

/-- PATCH 8: add the `board` routing after the `ver` routing, when absent. -/
def patch8 (c : List Char) : List Char :=
  if containsSub c (("command == \"board\"").toList) then c
  else if containsSub c old_ver_routing then
    pyReplace c old_ver_routing new_ver_routing
  else c

/-- PATCH 9: insert the stats method implementations after the last
`return "Unknown log command"` line, when absent. -/
def patch9 (c : List Char) : List Char :=
  if containsSub c (("def _cmd_stats_packets").toList) then c
  else
    let logEnd := pyRFind c (("return \"Unknown log command\"").toList)
    if logEnd > 0 then
      let nlPos := pyFindFrom c (("\n").toList) logEnd.toNat
      if nlPos > 0 then c.take nlPos.toNat ++ stats_methods ++ c.drop nlPos.toNat
      else c
    else c

/-- The full content transformation applied by `patch_file`: the nine patches
in source order. -/
def patchContent (c : List Char) : List Char :=
  patch9 (patch8 (patch7 (patch6 (patch5 (patch4 (patch3 (patch2 (patch1 c))))))))

/-- All patch guards hold on `c`: the four inserted markers are present and
the five replaced old-code blocks are absent.  On such content every patch is
skipped. -/
def patchGuards (c : List Char) : Bool :=
  containsSub c (("import subprocess").toList) &&
  containsSub c (("_tempradio_task").toList) &&
  !containsSub c old_reboot &&
  !containsSub c old_clear_stats &&
  !containsSub c old_neighbor_remove &&
  !containsSub c old_tempradio &&
  !containsSub c old_stats_routing &&
  containsSub c (("command == \"board\"").toList) &&
  containsSub c (("def _cmd_stats_packets").toList)


/-- The concrete input text of the idempotence counterexample. -/
def patchCexInput : List Char :=
  ("x = 1\nreturn \"Unknown log command\"\nlogger = 1").toList

/-- The content after one application of the patch transformation to
`patchCexInput` (spelled out; proved equal below). -/
def patchCexRun1 : List Char :=
  ("x = 1\nreturn \"Unknown log command\"\n    # ==================== Statistics Commands (pymc_console) ====================\n    \n    def _cmd_stats_packets(self) -> str:\n        \"\"\"Show packet statistics (MeshCore parity).\"\"\"\n        if not self.storage_handler:\n            return \"Error: Storage not available\"\n        \n        try:\n            # Get stats from storage if available\n            stats = \x7b\x7d\n            if hasattr(self.storage_handler, 'get_packet_stats'):\n                stats = self.storage_handler.get_packet_stats()\n            elif hasattr(self.storage_handler, 'get_stats'):\n                stats = self.storage_handler.get_stats()\n            \n            rx = stats.get('rx_count', stats.get('received', 0))\n            tx = stats.get('tx_count', stats.get('transmitted', 0))\n            fwd = stats.get('forwarded_count', stats.get('forwarded', 0))\n            drop = stats.get('dropped_count', stats.get('dropped', 0))\n            \n            return f\"rx: \x7brx\x7d\\ntx: \x7btx\x7d\\nfwd: \x7bfwd\x7d\\ndrop: \x7bdrop\x7d\"\n        except Exception as e:\n            logger.error(f\"stats-packets error: \x7be\x7d\")\n            return f\"Error: \x7be\x7d\"\n    \n    def _cmd_stats_radio(self) -> str:\n        \"\"\"Show radio statistics (MeshCore parity).\"\"\"\n        radio = self.config.get('radio', \x7b\x7d)\n        \n        freq_hz = radio.get('frequency', 915000000)\n        bw_hz = radio.get('bandwidth', 125000)\n        sf = radio.get('spreading_factor', 7)\n        cr = radio.get('coding_rate', 5)\n        tx_power = radio.get('tx_power', 20)\n        \n        freq_mhz = freq_hz / 1_000_000.0\n        bw_khz = bw_hz / 1_000.0\n        \n        # Get noise floor if available\n        noise = \"?\"\n        if self.storage_handler and hasattr(self.storage_handler, 'get_noise_floor'):\n            noise = self.storage_handler.get_noise_floor()\n        \n        return (\n            f\"freq: \x7bfreq_mhz:.3f\x7d MHz\\n\"\n            f\"bw: \x7bbw_khz:.0f\x7d kHz\\n\"\n            f\"sf: \x7bsf\x7d\\n\"\n            f\"cr: \x7bcr\x7d\\n\"\n            f\"tx_pwr: \x7btx_power\x7d dBm\\n\"\n            f\"noise: \x7bnoise\x7d dBm\"\n        )\n    \n    def _cmd_stats_core(self) -> str:\n        \"\"\"Show core statistics (MeshCore parity).\"\"\"\n        import time\n        \n        # Basic uptime (process start time not tracked, use placeholder)\n        uptime_str = \"unknown\"\n        \n        # Get neighbor count\n        neighbor_count = 0\n        if self.storage_handler and hasattr(self.storage_handler, 'get_neighbors'):\n            neighbors = self.storage_handler.get_neighbors()\n            neighbor_count = len(neighbors) if neighbors else 0\n        \n        # Get stats\n        stats = \x7b\x7d\n        if self.storage_handler:\n            if hasattr(self.storage_handler, 'get_stats'):\n                stats = self.storage_handler.get_stats()\n        \n        rx_hr = stats.get('rx_per_hour', '?')\n        fwd_hr = stats.get('forwarded_per_hour', '?')\n        airtime = stats.get('utilization_percent', '?')\n        \n        return (\n            f\"uptime: \x7buptime_str\x7d\\n\"\n            f\"rx/hr: \x7brx_hr\x7d\\n\"\n            f\"fwd/hr: \x7bfwd_hr\x7d\\n\"\n            f\"neighbors: \x7bneighbor_count\x7d\\n\"\n            f\"airtime: \x7bairtime\x7d%\"\n        )\n    \n    def _cmd_board(self) -> str:\n        \"\"\"Show board/platform information (MeshCore parity).\"\"\"\n        import platform\n        return f\"pyMC_Repeater (\x7bplatform.system()\x7d/\x7bplatform.machine()\x7d)\"\n\nlogger = 1").toList

/-- The content after a second application (spelled out; proved equal below):
the second run inserts the subprocess import inside the stats methods that the
first run placed before the `logger = ` marker. -/
def patchCexRun2 : List Char :=
  ("x = 1\nreturn \"Unknown log command\"\n    # ==================== Statistics Commands (pymc_console) ====================\n    \n    def _cmd_stats_packets(self) -> str:\n        \"\"\"Show packet statistics (MeshCore parity).\"\"\"\n        if not self.storage_handler:\n            return \"Error: Storage not available\"\n        \n        try:\n            # Get stats from storage if available\n            stats = \x7b\x7d\n            if hasattr(self.storage_handler, 'get_packet_stats'):\n                stats = self.storage_handler.get_packet_stats()\n            elif hasattr(self.storage_handler, 'get_stats'):\n                stats = self.storage_handler.get_stats()\n            \n            rx = stats.get('rx_count', stats.get('received', 0))\n            tx = stats.get('tx_count', stats.get('transmitted', 0))\n            fwd = stats.get('forwarded_count', stats.get('forwarded', 0))\n            drop = stats.get('dropped_count', stats.get('dropped', 0))\n            \n            return f\"rx: \x7brx\x7d\\ntx: \x7btx\x7d\\nfwd: \x7bfwd\x7d\\ndrop: \x7bdrop\x7d\"\n        except Exception as e:\n            logger.error(f\"stats-packets error: \x7be\x7d\")\n            return f\"Error: \x7be\x7d\"\n    \n    def _cmd_stats_radio(self) -> str:\n        \"\"\"Show radio statistics (MeshCore parity).\"\"\"\n        radio = self.config.get('radio', \x7b\x7d)\n        \n        freq_hz = radio.get('frequency', 915000000)\n        bw_hz = radio.get('bandwidth', 125000)\n        sf = radio.get('spreading_factor', 7)\n        cr = radio.get('coding_rate', 5)\n        tx_power = radio.get('tx_power', 20)\n        \n        freq_mhz = freq_hz / 1_000_000.0\n        bw_khz = bw_hz / 1_000.0\n        \n        # Get noise floor if available\n        noise = \"?\"\n        if self.storage_handler and hasattr(self.storage_handler, 'get_noise_floor'):\n            noise = self.storage_handler.get_noise_floor()\n        \n        return (\n            f\"freq: \x7bfreq_mhz:.3f\x7d MHz\\n\"\n            f\"bw: \x7bbw_khz:.0f\x7d kHz\\n\"\n            f\"sf: \x7bsf\x7d\\n\"\n            f\"cr: \x7bcr\x7d\\n\"\n            f\"tx_pwr: \x7btx_power\x7d dBm\\n\"\n            f\"noise: \x7bnoise\x7d dBm\"\n        )\n    \n    def _cmd_stats_core(self) -> str:\n        \"\"\"Show core statistics (MeshCore parity).\"\"\"\n        import time\nimport subprocess  # pymc_console: for systemctl commands\n        \n        # Basic uptime (process start time not tracked, use placeholder)\n        uptime_str = \"unknown\"\n        \n        # Get neighbor count\n        neighbor_count = 0\n        if self.storage_handler and hasattr(self.storage_handler, 'get_neighbors'):\n            neighbors = self.storage_handler.get_neighbors()\n            neighbor_count = len(neighbors) if neighbors else 0\n        \n        # Get stats\n        stats = \x7b\x7d\n        if self.storage_handler:\n            if hasattr(self.storage_handler, 'get_stats'):\n                stats = self.storage_handler.get_stats()\n        \n        rx_hr = stats.get('rx_per_hour', '?')\n        fwd_hr = stats.get('forwarded_per_hour', '?')\n        airtime = stats.get('utilization_percent', '?')\n        \n        return (\n            f\"uptime: \x7buptime_str\x7d\\n\"\n            f\"rx/hr: \x7brx_hr\x7d\\n\"\n            f\"fwd/hr: \x7bfwd_hr\x7d\\n\"\n            f\"neighbors: \x7bneighbor_count\x7d\\n\"\n            f\"airtime: \x7bairtime\x7d%\"\n        )\n    \n    def _cmd_board(self) -> str:\n        \"\"\"Show board/platform information (MeshCore parity).\"\"\"\n        import platform\n        return f\"pyMC_Repeater (\x7bplatform.system()\x7d/\x7bplatform.machine()\x7d)\"\n\nlogger = 1").toList

/-- The part of `patchCexRun1` before its `\nlogger = ` marker (the section in
which PATCH 1 of the second run performs its replacement). -/
def patchCexSec : List Char :=
  ("x = 1\nreturn \"Unknown log command\"\n    # ==================== Statistics Commands (pymc_console) ====================\n    \n    def _cmd_stats_packets(self) -> str:\n        \"\"\"Show packet statistics (MeshCore parity).\"\"\"\n        if not self.storage_handler:\n            return \"Error: Storage not available\"\n        \n        try:\n            # Get stats from storage if available\n            stats = \x7b\x7d\n            if hasattr(self.storage_handler, 'get_packet_stats'):\n                stats = self.storage_handler.get_packet_stats()\n            elif hasattr(self.storage_handler, 'get_stats'):\n                stats = self.storage_handler.get_stats()\n            \n            rx = stats.get('rx_count', stats.get('received', 0))\n            tx = stats.get('tx_count', stats.get('transmitted', 0))\n            fwd = stats.get('forwarded_count', stats.get('forwarded', 0))\n            drop = stats.get('dropped_count', stats.get('dropped', 0))\n            \n            return f\"rx: \x7brx\x7d\\ntx: \x7btx\x7d\\nfwd: \x7bfwd\x7d\\ndrop: \x7bdrop\x7d\"\n        except Exception as e:\n            logger.error(f\"stats-packets error: \x7be\x7d\")\n            return f\"Error: \x7be\x7d\"\n    \n    def _cmd_stats_radio(self) -> str:\n        \"\"\"Show radio statistics (MeshCore parity).\"\"\"\n        radio = self.config.get('radio', \x7b\x7d)\n        \n        freq_hz = radio.get('frequency', 915000000)\n        bw_hz = radio.get('bandwidth', 125000)\n        sf = radio.get('spreading_factor', 7)\n        cr = radio.get('coding_rate', 5)\n        tx_power = radio.get('tx_power', 20)\n        \n        freq_mhz = freq_hz / 1_000_000.0\n        bw_khz = bw_hz / 1_000.0\n        \n        # Get noise floor if available\n        noise = \"?\"\n        if self.storage_handler and hasattr(self.storage_handler, 'get_noise_floor'):\n            noise = self.storage_handler.get_noise_floor()\n        \n        return (\n            f\"freq: \x7bfreq_mhz:.3f\x7d MHz\\n\"\n            f\"bw: \x7bbw_khz:.0f\x7d kHz\\n\"\n            f\"sf: \x7bsf\x7d\\n\"\n            f\"cr: \x7bcr\x7d\\n\"\n            f\"tx_pwr: \x7btx_power\x7d dBm\\n\"\n            f\"noise: \x7bnoise\x7d dBm\"\n        )\n    \n    def _cmd_stats_core(self) -> str:\n        \"\"\"Show core statistics (MeshCore parity).\"\"\"\n        import time\n        \n        # Basic uptime (process start time not tracked, use placeholder)\n        uptime_str = \"unknown\"\n        \n        # Get neighbor count\n        neighbor_count = 0\n        if self.storage_handler and hasattr(self.storage_handler, 'get_neighbors'):\n            neighbors = self.storage_handler.get_neighbors()\n            neighbor_count = len(neighbors) if neighbors else 0\n        \n        # Get stats\n        stats = \x7b\x7d\n        if self.storage_handler:\n            if hasattr(self.storage_handler, 'get_stats'):\n                stats = self.storage_handler.get_stats()\n        \n        rx_hr = stats.get('rx_per_hour', '?')\n        fwd_hr = stats.get('forwarded_per_hour', '?')\n        airtime = stats.get('utilization_percent', '?')\n        \n        return (\n            f\"uptime: \x7buptime_str\x7d\\n\"\n            f\"rx/hr: \x7brx_hr\x7d\\n\"\n            f\"fwd/hr: \x7bfwd_hr\x7d\\n\"\n            f\"neighbors: \x7bneighbor_count\x7d\\n\"\n            f\"airtime: \x7bairtime\x7d%\"\n        )\n    \n    def _cmd_board(self) -> str:\n        \"\"\"Show board/platform information (MeshCore parity).\"\"\"\n        import platform\n        return f\"pyMC_Repeater (\x7bplatform.system()\x7d/\x7bplatform.machine()\x7d)\"\n").toList

/-- The part of `patchCexRun1` from its `\nlogger = ` marker on. -/
def patchCexRest : List Char :=
  ("\nlogger = 1").toList

/-- `patchCexSec` after the second run's PATCH 1 replacement. -/
def patchCexSecRep : List Char :=
  ("x = 1\nreturn \"Unknown log command\"\n    # ==================== Statistics Commands (pymc_console) ====================\n    \n    def _cmd_stats_packets(self) -> str:\n        \"\"\"Show packet statistics (MeshCore parity).\"\"\"\n        if not self.storage_handler:\n            return \"Error: Storage not available\"\n        \n        try:\n            # Get stats from storage if available\n            stats = \x7b\x7d\n            if hasattr(self.storage_handler, 'get_packet_stats'):\n                stats = self.storage_handler.get_packet_stats()\n            elif hasattr(self.storage_handler, 'get_stats'):\n                stats = self.storage_handler.get_stats()\n            \n            rx = stats.get('rx_count', stats.get('received', 0))\n            tx = stats.get('tx_count', stats.get('transmitted', 0))\n            fwd = stats.get('forwarded_count', stats.get('forwarded', 0))\n            drop = stats.get('dropped_count', stats.get('dropped', 0))\n            \n            return f\"rx: \x7brx\x7d\\ntx: \x7btx\x7d\\nfwd: \x7bfwd\x7d\\ndrop: \x7bdrop\x7d\"\n        except Exception as e:\n            logger.error(f\"stats-packets error: \x7be\x7d\")\n            return f\"Error: \x7be\x7d\"\n    \n    def _cmd_stats_radio(self) -> str:\n        \"\"\"Show radio statistics (MeshCore parity).\"\"\"\n        radio = self.config.get('radio', \x7b\x7d)\n        \n        freq_hz = radio.get('frequency', 915000000)\n        bw_hz = radio.get('bandwidth', 125000)\n        sf = radio.get('spreading_factor', 7)\n        cr = radio.get('coding_rate', 5)\n        tx_power = radio.get('tx_power', 20)\n        \n        freq_mhz = freq_hz / 1_000_000.0\n        bw_khz = bw_hz / 1_000.0\n        \n        # Get noise floor if available\n        noise = \"?\"\n        if self.storage_handler and hasattr(self.storage_handler, 'get_noise_floor'):\n            noise = self.storage_handler.get_noise_floor()\n        \n        return (\n            f\"freq: \x7bfreq_mhz:.3f\x7d MHz\\n\"\n            f\"bw: \x7bbw_khz:.0f\x7d kHz\\n\"\n            f\"sf: \x7bsf\x7d\\n\"\n            f\"cr: \x7bcr\x7d\\n\"\n            f\"tx_pwr: \x7btx_power\x7d dBm\\n\"\n            f\"noise: \x7bnoise\x7d dBm\"\n        )\n    \n    def _cmd_stats_core(self) -> str:\n        \"\"\"Show core statistics (MeshCore parity).\"\"\"\n        import time\nimport subprocess  # pymc_console: for systemctl commands\n        \n        # Basic uptime (process start time not tracked, use placeholder)\n        uptime_str = \"unknown\"\n        \n        # Get neighbor count\n        neighbor_count = 0\n        if self.storage_handler and hasattr(self.storage_handler, 'get_neighbors'):\n            neighbors = self.storage_handler.get_neighbors()\n            neighbor_count = len(neighbors) if neighbors else 0\n        \n        # Get stats\n        stats = \x7b\x7d\n        if self.storage_handler:\n            if hasattr(self.storage_handler, 'get_stats'):\n                stats = self.storage_handler.get_stats()\n        \n        rx_hr = stats.get('rx_per_hour', '?')\n        fwd_hr = stats.get('forwarded_per_hour', '?')\n        airtime = stats.get('utilization_percent', '?')\n        \n        return (\n            f\"uptime: \x7buptime_str\x7d\\n\"\n            f\"rx/hr: \x7brx_hr\x7d\\n\"\n            f\"fwd/hr: \x7bfwd_hr\x7d\\n\"\n            f\"neighbors: \x7bneighbor_count\x7d\\n\"\n            f\"airtime: \x7bairtime\x7d%\"\n        )\n    \n    def _cmd_board(self) -> str:\n        \"\"\"Show board/platform information (MeshCore parity).\"\"\"\n        import platform\n        return f\"pyMC_Repeater (\x7bplatform.system()\x7d/\x7bplatform.machine()\x7d)\"\n").toList

/-! ## Specification-side definitions (statement vocabulary)

These definitions follow the wording of the specification and the claims;
the theorems below compare them with the source-derived functions above. -/

/-- The fixed closed category label set of the specification. -/
def categoryLabels : List (List Char) :=
  [("get").toList, ("set").toList, ("logging").toList, ("gps").toList,
   ("sensor").toList, ("bridge").toList, ("stats").toList, ("neighbor").toList,
   ("system").toList, ("radio").toList, ("config").toList, ("other").toList]

/-- First-occurrence-by-name de-duplication (specification wording: later
duplicates by name are discarded, fields taken from the first match). -/
def dedupFirst (acc : List Command) : List Command → List Command
  | [] => acc
  | d :: ds =>
    if acc.any (fun c0 => c0.name == d.name) then dedupFirst acc ds
    else dedupFirst (acc ++ [d]) ds

/-- The undeduplicated descriptor stream: one descriptor per command-token
match, in match order, with the context evolving exactly as in the scan. -/
def collectLoop (lines : List (List Char)) :
    List (List Char) → Nat → Ctx → List Command
  | [], _, _ => []
  | line :: rest, i, ctx =>
    let ctx1 := ctxMid line ctx
    (match cmdSearch line with
     | some (v, s, n) => [mkCommand lines i ctx1.inGet ctx1.inSet ctx1.serialCtx v s n]
     | none => []) ++ collectLoop lines rest (i + 1) (ctxStep4 line ctx1)

/-- All matched descriptors of an input, without de-duplication. -/
def collectAll (lines : List (List Char)) : List Command :=
  collectLoop lines lines 0 initCtx

/-- The parameter entry contributed by one window line, if any: the
`if`/`elif` priority of the conversion-call checks. -/
def paramOfLine (line : List Char) : Option Param :=
  if containsSub line (("atof(").toList) then
    some ⟨("value").toList, ("float").toList⟩
  else if containsSub line (("atoi(").toList) || containsSub line (("_atoi(").toList) then
    some ⟨("value").toList, ("int").toList⟩
  else if containsSub line (("strncpy(").toList) ||
      containsSub line (("StrHelper::strncpy(").toList) then
    some ⟨("value").toList, ("string").toList⟩
  else none

/-- The reply-template captures contributed by one window line, in the order
the scan consults them (`sprintf` first, then `strcpy`). -/
def replyCaps (line : List Char) : List (List Char) :=
  (replySearch line).toList ++ (strcpySearch line).toList

/-- One truthiness-guarded update of the `response_format` variable by a
captured template. -/
def updFmt (f : Option (List Char)) (cap : List Char) : Option (List Char) :=
  if isFalsy f then some cap else f

/-- The reply template recorded by a window scan: the first non-empty capture
in window order; `some []` if captures exist but all are empty; `none` if
there is no capture at all. -/
def firstReplyFmt (window : List (List Char)) : Option (List Char) :=
  match ((window.map replyCaps).flatten).filter (fun c => !c.isEmpty) with
  | c :: _ => some c
  | [] => if ((window.map replyCaps).flatten).isEmpty then none else some []

/-- Trailing-space test used by the original wording of the `has_param` claim. -/
def endsWithSpace (cs : List Char) : Bool := cs.getLast? == some ' '

/-- Is the input a concatenation of the four placeholders
`{int}`, `{str}`, `{uint}`, `{float}`?  (`fuel`-bounded; each token consumes
at least one character.) -/
def isPlaceholderConcatAux : Nat → List Char → Bool
  | 0, cs => cs.isEmpty
  | fuel + 1, cs =>
    cs.isEmpty ||
    ([intRepl, strRepl, uintRepl, floatRepl].any fun t =>
      beginsWith t cs && isPlaceholderConcatAux fuel (cs.drop t.length))

/-- A string containing only the four placeholders. -/
def isPlaceholderConcat (cs : List Char) : Bool :=
  isPlaceholderConcatAux cs.length cs

/-- No printf-style specifier matches at this position. -/
def noSpecAt (cs : List Char) : Bool :=
  (matchIntSpec cs).isNone && (matchStrSpec cs).isNone &&
  (matchUintSpec cs).isNone && (matchFloatSpec cs).isNone

/-- No printf-style specifier matches anywhere in the string. -/
def noSpecB : List Char → Bool
  | [] => noSpecAt []
  | c :: cs => noSpecAt (c :: cs) && noSpecB cs

/-! ## Reflection of the Boolean list equality -/

/-- `eqList` decides equality of character lists. -/
theorem eqList_iff : ∀ (a b : List Char), eqList a b = true ↔ a = b := by
  intro a
  induction a with
  | nil => intro b; cases b <;> simp [eqList]
  | cons x as ih =>
    intro b
    cases b with
    | nil => simp [eqList]
    | cons y bs =>
      rw [show eqList (x :: as) (y :: bs) = ((x == y) && eqList as bs) from rfl,
        Bool.and_eq_true, beq_iff_eq, ih bs]
      constructor
      · rintro ⟨h1, h2⟩; rw [h1, h2]
      · intro h; injection h with h1 h2; exact ⟨h1, h2⟩

/-! ## Lemmas about the lookahead window -/

/-- Iterating with fuel `n` only ever reads the first `n` list entries. -/
theorem lookaheadAux_take (n : Nat) :
    ∀ (l : List (List Char)) (acc : Option (List Char) × List Param),
      lookaheadAux n l acc = lookaheadAux n (l.take n) acc := by
  induction n with
  | zero => intro l acc; rfl
  | succ n ih =>
    intro l acc
    cases l with
    | nil => rfl
    | cons c t =>
      rw [List.take_succ_cons]
      exact ih t (stepContext acc c)

/-- The lookahead at `i` reads only lines `i .. i+14`. -/
theorem lookahead_take_window (lines : List (List Char)) (i : Nat) :
    lookahead (lines.take (i + 15)) i = lookahead lines i := by
  unfold lookahead
  rw [List.drop_take, show i + 15 - i = 15 by omega, ← lookaheadAux_take]

/-- C2: the lookahead scan attached to a command-token match at line `i`
covers exactly the 15 lines starting at line `i` inclusive (fewer at end of
input): the descriptor built at `i` is unchanged when the input is truncated
to its first `i + 15` lines, so a reply-construction or parameter-conversion
call at line index `i + 15` or later is never attributed to it. -/
theorem mkCommand_lookahead_window_bounded (lines : List (List Char)) (i : Nat)
    (inGet inSet serialCtx : Bool) (v : CmdVar) (cmdStr : List Char) (cmdLen : Nat) :
    mkCommand lines i inGet inSet serialCtx v cmdStr cmdLen =
      mkCommand (lines.take (i + 15)) i inGet inSet serialCtx v cmdStr cmdLen := by
  unfold mkCommand
  rw [lookahead_take_window]

/-! ## Lemmas about the parameter inference (claim C4) -/

/-- Per-line effect of the window scan on `params`: at most one entry is
appended, as described by `paramOfLine`. -/
theorem stepContext_params (acc : Option (List Char) × List Param) (line : List Char) :
    (stepContext acc line).2 = acc.2 ++ (paramOfLine line).toList := by
  unfold stepContext paramOfLine
  split_ifs <;> simp

/-- The `params` component of the window scan collects `paramOfLine` over the
scanned lines. -/
theorem lookaheadAux_params (n : Nat) :
    ∀ (l : List (List Char)) (acc : Option (List Char) × List Param),
      (lookaheadAux n l acc).2 = acc.2 ++ (l.take n).filterMap paramOfLine := by
  induction n with
  | zero => intro l acc; simp [lookaheadAux]
  | succ n ih =>
    intro l acc
    cases l with
    | nil => simp [lookaheadAux]
    | cons c t =>
      rw [List.take_succ_cons, List.filterMap_cons,
        show lookaheadAux (n + 1) (c :: t) acc = lookaheadAux n t (stepContext acc c) from rfl,
        ih, stepContext_params]
      cases h : paramOfLine c <;> simp [h]

/-- The inferred parameters of a lookahead at `i` are exactly `paramOfLine`
collected over the 15-line window. -/
theorem lookahead_params (lines : List (List Char)) (i : Nat) :
    (lookahead lines i).2 = ((lines.drop i).take 15).filterMap paramOfLine := by
  unfold lookahead
  rw [lookaheadAux_take, lookaheadAux_params]
  simp [List.take_take]

/-- C4 (amended): the descriptor's parameter list has one entry per window
line that contains a conversion call, in line order, the entry being chosen by
the `if`/`elif` priority float > int > string (`paramOfLine`); a line with two
distinct conversion calls therefore contributes only one entry. -/
theorem mkCommand_params_one_per_window_line (lines : List (List Char)) (i : Nat)
    (inGet inSet serialCtx : Bool) (v : CmdVar) (cmdStr : List Char) (cmdLen : Nat) :
    (mkCommand lines i inGet inSet serialCtx v cmdStr cmdLen).params =
      ((lines.drop i).take 15).filterMap paramOfLine := by
  simp only [mkCommand]
  exact lookahead_params lines i

/-! ## Lemmas about the reply-format inference (claims C5 and C10) -/

/-- Per-line effect of the window scan on `response_format`: the two
truthiness-guarded updates are the fold of `updFmt` over the line's captures. -/
theorem stepContext_fmt (acc : Option (List Char) × List Param) (line : List Char) :
    (stepContext acc line).1 = (replyCaps line).foldl updFmt acc.1 := by
  unfold stepContext replyCaps updFmt
  cases replySearch line <;> cases strcpySearch line <;> simp [Option.toList]

/-- The `response_format` component of the window scan folds `updFmt` over
all captures of the scanned lines. -/
theorem lookaheadAux_fmt (n : Nat) :
    ∀ (l : List (List Char)) (acc : Option (List Char) × List Param),
      (lookaheadAux n l acc).1 =
        (((l.take n).map replyCaps).flatten).foldl updFmt acc.1 := by
  induction n with
  | zero => intro l acc; simp [lookaheadAux]
  | succ n ih =>
    intro l acc
    cases l with
    | nil => simp [lookaheadAux]
    | cons c t =>
      rw [List.take_succ_cons, List.map_cons, List.flatten_cons, List.foldl_append,
        show lookaheadAux (n + 1) (c :: t) acc = lookaheadAux n t (stepContext acc c) from rfl,
        ih, stepContext_fmt]

/-- Folding `updFmt` from a non-falsy accumulator changes nothing. -/
theorem foldl_updFmt_not_falsy (caps : List (List Char)) :
    ∀ (f : Option (List Char)), isFalsy f = false → caps.foldl updFmt f = f := by
  induction caps with
  | nil => intro f _; rfl
  | cons c caps ih =>
    intro f hf
    rw [List.foldl_cons, show updFmt f c = f from by unfold updFmt; rw [hf]; rfl]
    exact ih f hf

/-- Folding `updFmt` from a falsy accumulator yields the first non-empty
capture, or `some []`/the accumulator when no capture is non-empty. -/
theorem foldl_updFmt_falsy (caps : List (List Char)) :
    ∀ (f : Option (List Char)), isFalsy f = true →
      caps.foldl updFmt f =
        (match caps.filter (fun c => !c.isEmpty) with
         | c :: _ => some c
         | [] => if caps.isEmpty then f else some []) := by
  induction caps with
  | nil => intro f _; rfl
  | cons c caps ih =>
    intro f hf
    rw [List.foldl_cons, show updFmt f c = some c from by unfold updFmt; rw [hf]; rfl]
    cases hc : c.isEmpty with
    | true =>
      have hc' : c = [] := List.isEmpty_iff.mp hc
      subst hc'
      rw [ih (some []) rfl]
      simp only [List.filter_cons, hc]
      cases hfil : caps.filter (fun c => !c.isEmpty) with
      | cons d ds => simp [hfil]
      | nil => simp [hfil, List.isEmpty_cons]
    | false =>
      rw [foldl_updFmt_not_falsy caps (some c) (by simpa [isFalsy] using hc)]
      simp [List.filter_cons, hc]

/-- The reply format of a lookahead at `i` is `firstReplyFmt` of the 15-line
window. -/
theorem lookahead_fmt (lines : List (List Char)) (i : Nat) :
    (lookahead lines i).1 = firstReplyFmt ((lines.drop i).take 15) := by
  unfold lookahead firstReplyFmt
  rw [lookaheadAux_take, lookaheadAux_fmt, List.take_take, Nat.min_self,
    foldl_updFmt_falsy _ none rfl]

/-- C5 (amended): the recorded `response_format` is the cleaned first
NON-EMPTY reply capture in window order (`sprintf` consulted before `strcpy`
on each line); when captures exist but all are empty the recorded raw value is
the empty template (cleaned to `None`), and with no capture it is `None`.  In
particular a non-empty first capture is never overwritten, while an empty
first capture is overwritten by a later non-empty one. -/
theorem mkCommand_response_format_first_nonempty (lines : List (List Char)) (i : Nat)
    (inGet inSet serialCtx : Bool) (v : CmdVar) (cmdStr : List Char) (cmdLen : Nat) :
    (mkCommand lines i inGet inSet serialCtx v cmdStr cmdLen).response_format =
      clean_response_format (firstReplyFmt ((lines.drop i).take 15)) := by
  simp only [mkCommand]
  rw [lookahead_fmt]

/-- C3 (amended): `has_param` is true iff the matched literal contains a space
character anywhere (not only a trailing one) or the inferred parameter list is
non-empty. -/
theorem mkCommand_has_param_iff_space_or_params (lines : List (List Char)) (i : Nat)
    (inGet inSet serialCtx : Bool) (v : CmdVar) (cmdStr : List Char) (cmdLen : Nat) :
    (mkCommand lines i inGet inSet serialCtx v cmdStr cmdLen).has_param = true ↔
      (cmdStr.contains ' ' = true ∨
        (mkCommand lines i inGet inSet serialCtx v cmdStr cmdLen).params ≠ []) := by
  simp only [mkCommand]
  rw [Bool.or_eq_true, Bool.not_eq_true', List.isEmpty_eq_false]

/-! ## De-duplication (claim C1) -/

/-- The main loop is the first-occurrence de-duplication of the
undeduplicated descriptor stream. -/
theorem parseLoop_commands (lines : List (List Char)) :
    ∀ (rest : List (List Char)) (i : Nat) (ctx : Ctx) (cmds : List Command),
      (parseLoop lines rest i ⟨ctx, cmds⟩).commands =
        dedupFirst cmds (collectLoop lines rest i ctx) := by
  intro rest
  induction rest with
  | nil => intro i ctx cmds; rfl
  | cons line rest ih =>
    intro i ctx cmds
    rw [show parseLoop lines (line :: rest) i ⟨ctx, cmds⟩ =
        parseLoop lines rest (i + 1) (stepLine lines i line ⟨ctx, cmds⟩) from rfl,
      show collectLoop lines (line :: rest) i ctx =
        (match cmdSearch line with
         | some (v, s, n) => [mkCommand lines i (ctxMid line ctx).inGet
             (ctxMid line ctx).inSet (ctxMid line ctx).serialCtx v s n]
         | none => []) ++
          collectLoop lines rest (i + 1) (ctxStep4 line (ctxMid line ctx)) from rfl]
    cases hm : cmdSearch line with
    | none =>
      rw [show stepLine lines i line ⟨ctx, cmds⟩ =
          ⟨ctxStep4 line (ctxMid line ctx), cmds⟩ from by unfold stepLine; rw [hm]]
      rw [ih]
      simp
    | some m =>
      obtain ⟨v, s, n⟩ := m
      cases hdup : cmds.any (fun c0 => c0.name ==
          (mkCommand lines i (ctxMid line ctx).inGet (ctxMid line ctx).inSet
            (ctxMid line ctx).serialCtx v s n).name) with
      | true =>
        rw [show stepLine lines i line ⟨ctx, cmds⟩ =
            ⟨ctxStep4 line (ctxMid line ctx), cmds⟩ from by
          unfold stepLine; rw [hm]; simp [hdup]]
        rw [ih]
        simp only [List.singleton_append,
          show ∀ (d : Command) (ds : List Command), dedupFirst cmds (d :: ds) =
            if cmds.any (fun c0 => c0.name == d.name) then dedupFirst cmds ds
            else dedupFirst (cmds ++ [d]) ds from fun d ds => rfl,
          hdup]
        simp
      | false =>
        rw [show stepLine lines i line ⟨ctx, cmds⟩ =
            ⟨ctxStep4 line (ctxMid line ctx),
              cmds ++ [mkCommand lines i (ctxMid line ctx).inGet
                (ctxMid line ctx).inSet (ctxMid line ctx).serialCtx v s n]⟩ from by
          unfold stepLine; rw [hm]; simp [hdup]]
        rw [ih]
        simp only [List.singleton_append,
          show ∀ (d : Command) (ds : List Command), dedupFirst cmds (d :: ds) =
            if cmds.any (fun c0 => c0.name == d.name) then dedupFirst cmds ds
            else dedupFirst (cmds ++ [d]) ds from fun d ds => rfl,
          hdup]
        simp

/-- `dedupFirst` preserves name-uniqueness of the accumulator. -/
theorem dedupFirst_nodup (L : List Command) :
    ∀ (acc : List Command), (acc.map Command.name).Nodup →
      ((dedupFirst acc L).map Command.name).Nodup := by
  induction L with
  | nil => intro acc h; exact h
  | cons d L ih =>
    intro acc h
    cases hd : acc.any (fun c0 => c0.name == d.name) with
    | true =>
      unfold dedupFirst
      rw [hd]
      exact ih acc h
    | false =>
      unfold dedupFirst
      rw [hd]
      apply ih
      rw [List.map_append, List.nodup_append]
      refine ⟨h, List.nodup_singleton _, ?_⟩
      rw [List.map_singleton, List.disjoint_singleton]
      intro hmem
      rw [List.mem_map] at hmem
      obtain ⟨c0, hc0, hname⟩ := hmem
      rw [List.any_eq_false] at hd
      exact hd c0 hc0 (by rw [beq_iff_eq]; exact hname)

/-- C1: `parse_commands` returns the first-occurrence-by-name de-duplication
of the full match stream — for each derived name the single retained
descriptor is the one computed at the first match, later duplicates being
discarded — and the names in the output are pairwise distinct. -/
theorem parse_commands_dedup_first_wins (lines : List (List Char)) :
    parse_commands lines = dedupFirst [] (collectAll lines) ∧
    ((parse_commands lines).map Command.name).Nodup := by
  have h : parse_commands lines = dedupFirst [] (collectAll lines) :=
    parseLoop_commands lines lines 0 initCtx []
  exact ⟨h, by rw [h]; exact dedupFirst_nodup _ [] (by simp)⟩

/-! ## Category closure (claim C6) -/

set_option maxHeartbeats 2000000 in
/-- `classify_command` is total into the fixed label set. -/
theorem classify_command_mem (cmd : List Char) :
    classify_command cmd ∈ categoryLabels := by
  unfold classify_command
  split_ifs <;> simp [categoryLabels]

set_option maxHeartbeats 1000000 in
/-- Every built descriptor's category lies in the fixed label set. -/
theorem mkCommand_category_mem (lines : List (List Char)) (i : Nat)
    (inGet inSet serialCtx : Bool) (v : CmdVar) (cmdStr : List Char) (cmdLen : Nat) :
    (mkCommand lines i inGet inSet serialCtx v cmdStr cmdLen).category ∈
      categoryLabels := by
  cases v with
  | command => simpa only [mkCommand] using classify_command_mem (pyStrip cmdStr)
  | config =>
    simp only [mkCommand]
    split_ifs <;> simp [categoryLabels]

/-- The loop preserves category closure of the accumulated descriptors. -/
theorem parseLoop_category_closed (lines : List (List Char)) :
    ∀ (rest : List (List Char)) (i : Nat) (st : ScanState),
      (∀ d ∈ st.commands, d.category ∈ categoryLabels) →
      ∀ d ∈ (parseLoop lines rest i st).commands, d.category ∈ categoryLabels := by
  intro rest
  induction rest with
  | nil => intro i st h; exact h
  | cons line rest ih =>
    intro i st h
    apply ih
    intro d hd
    cases hm : cmdSearch line with
    | none =>
      rw [show stepLine lines i line st = ⟨ctxStep4 line (ctxMid line st.ctx), st.commands⟩
          from by unfold stepLine; rw [hm]] at hd
      exact h d hd
    | some m =>
      obtain ⟨v, s, n⟩ := m
      cases hdup : st.commands.any (fun c0 => c0.name ==
          (mkCommand lines i (ctxMid line st.ctx).inGet (ctxMid line st.ctx).inSet
            (ctxMid line st.ctx).serialCtx v s n).name) with
      | true =>
        rw [show stepLine lines i line st =
            ⟨ctxStep4 line (ctxMid line st.ctx), st.commands⟩ from by
          unfold stepLine; rw [hm]; simp [hdup]] at hd
        exact h d hd
      | false =>
        rw [show stepLine lines i line st =
            ⟨ctxStep4 line (ctxMid line st.ctx),
              st.commands ++ [mkCommand lines i (ctxMid line st.ctx).inGet
                (ctxMid line st.ctx).inSet (ctxMid line st.ctx).serialCtx v s n]⟩ from by
          unfold stepLine; rw [hm]; simp [hdup]] at hd
        rw [List.mem_append] at hd
        rcases hd with hd | hd
        · exact h d hd
        · rw [List.mem_singleton] at hd
          subst hd
          exact mkCommand_category_mem lines i _ _ _ v s n

/-- C6: every descriptor produced by `parse_commands` has a category in the
fixed closed set {get, set, logging, gps, sensor, bridge, stats, neighbor,
system, radio, config, other}; the classification function is total and names
matching no rule fall into `other` (the final else branch of
`classify_command`). -/
theorem parse_commands_category_closed (lines : List (List Char)) (d : Command)
    (hd : d ∈ parse_commands lines) : d.category ∈ categoryLabels := by
  refine parseLoop_category_closed lines lines 0 initState ?_ d hd
  intro d hd
  simp [initState] at hd

/-- Witness for C6 at a concrete input: the single descriptor extracted from
`memcmp(command, "ver", 3) == 0` is in the output and its category (`system`)
is in the label set. -/
theorem parse_commands_category_closed_witness :
    (⟨("ver").toList, ("system").toList, [], none,
      ("Show firmware version and build date").toList, false, false⟩ : Command) ∈
        parse_commands [("memcmp(command, \"ver\", 3) == 0").toList] ∧
    (⟨("ver").toList, ("system").toList, [], none,
      ("Show firmware version and build date").toList, false, false⟩ : Command).category ∈
        categoryLabels :=
  ⟨by decide,
    parse_commands_category_closed [("memcmp(command, \"ver\", 3) == 0").toList]
      (⟨("ver").toList, ("system").toList, [], none,
        ("Show firmware version and build date").toList, false, false⟩ : Command)
      (by decide)⟩

/-! ## Fixpoints of the format normalization (claim C7) -/

/-- No specifier matcher fires at a position whose first character is not `%`. -/
theorem noSpecAt_cons (c : Char) (cs : List Char) (h : c ≠ '%') :
    noSpecAt (c :: cs) = true := by
  unfold noSpecAt matchIntSpec matchStrSpec matchUintSpec matchFloatSpec
  simp [h]

/-- `noSpecB` covers every suffix position. -/
theorem noSpecB_suffix : ∀ (cs ds : List Char), noSpecB cs = true → ds <:+ cs →
    noSpecAt ds = true := by
  intro cs
  induction cs with
  | nil =>
    intro ds h hsuf
    rw [List.suffix_nil] at hsuf
    subst hsuf
    exact h
  | cons c t ih =>
    intro ds h hsuf
    rw [show noSpecB (c :: t) = (noSpecAt (c :: t) && noSpecB t) from rfl,
      Bool.and_eq_true] at h
    rcases List.suffix_cons_iff.mp hsuf with h1 | h1
    · subst h1; exact h.1
    · exact ih ds h.2 h1

/-- A substitution pass whose matcher fires at no suffix of `cs` is the
identity on `cs`. -/
theorem substAux_nomatch (m : List Char → Option Nat) (repl : List Char) :
    ∀ (cs : List Char), (∀ ds, ds <:+ cs → m ds = none) →
      ∀ (fuel : Nat), substAux m repl fuel cs = cs := by
  intro cs
  induction cs with
  | nil => intro _ fuel; cases fuel <;> rfl
  | cons c t ih =>
    intro h fuel
    cases fuel with
    | zero => rfl
    | succ fuel =>
      rw [show substAux m repl (fuel + 1) (c :: t) =
          (match m (c :: t) with
           | some (n + 1) => repl ++ substAux m repl fuel (t.drop n)
           | _ => c :: substAux m repl fuel t) from rfl,
        h (c :: t) (List.suffix_refl _)]
      rw [ih (fun ds hds => h ds (hds.trans (List.suffix_cons c t))) fuel]

/-- Unpack `noSpecAt` into the four matcher facts. -/
theorem noSpecAt_matchers (ds : List Char) (h : noSpecAt ds = true) :
    matchIntSpec ds = none ∧ matchStrSpec ds = none ∧
    matchUintSpec ds = none ∧ matchFloatSpec ds = none := by
  unfold noSpecAt at h
  simp only [Bool.and_eq_true, Option.isNone_iff_eq_none] at h
  exact ⟨h.1.1.1, h.1.1.2, h.1.2, h.2⟩

/-- A non-empty string in which no printf-style specifier occurs is a fixed
point of `clean_response_format`. -/
theorem clean_response_format_fixed (s : List Char) (hns : noSpecB s = true)
    (hne : s ≠ []) : clean_response_format (some s) = some s := by
  have hAll : ∀ ds, ds <:+ s → noSpecAt ds = true :=
    fun ds hds => noSpecB_suffix s ds hns hds
  have h1 : pySub matchIntSpec intRepl s = s :=
    substAux_nomatch _ _ s (fun ds hds => (noSpecAt_matchers ds (hAll ds hds)).1) _
  have h2 : pySub matchStrSpec strRepl s = s :=
    substAux_nomatch _ _ s (fun ds hds => (noSpecAt_matchers ds (hAll ds hds)).2.1) _
  have h3 : pySub matchUintSpec uintRepl s = s :=
    substAux_nomatch _ _ s (fun ds hds => (noSpecAt_matchers ds (hAll ds hds)).2.2.1) _
  have h4 : pySub matchFloatSpec floatRepl s = s :=
    substAux_nomatch _ _ s (fun ds hds => (noSpecAt_matchers ds (hAll ds hds)).2.2.2) _
  rw [show clean_response_format (some s) =
      (if s.isEmpty then none
       else some (pySub matchFloatSpec floatRepl
        (pySub matchUintSpec uintRepl
          (pySub matchStrSpec strRepl (pySub matchIntSpec intRepl s))))) from rfl,
    if_neg (by simp [List.isEmpty_iff, hne]), h1, h2, h3, h4]

/-- A `beginsWith` match decomposes the list. -/
theorem beginsWith_append : ∀ (pat cs : List Char), beginsWith pat cs = true →
    cs = pat ++ cs.drop pat.length := by
  intro pat
  induction pat with
  | nil => intro cs _; rfl
  | cons p ps ih =>
    intro cs h
    cases cs with
    | nil => exact absurd h (by simp [beginsWith])
    | cons c t =>
      rw [show beginsWith (p :: ps) (c :: t) = ((p == c) && beginsWith ps t) from rfl,
        Bool.and_eq_true, beq_iff_eq] at h
      obtain ⟨hpc, h2⟩ := h
      subst hpc
      simpa [List.length_cons] using congrArg (p :: ·) (ih t h2)

/-- `noSpecB` holds on a concatenation whose head part has no `%` character. -/
theorem noSpecB_append (t rest : List Char) (ht : ∀ c ∈ t, c ≠ '%')
    (h : noSpecB rest = true) : noSpecB (t ++ rest) = true := by
  induction t with
  | nil => simpa
  | cons c t ih =>
    rw [List.cons_append,
      show noSpecB (c :: (t ++ rest)) = (noSpecAt (c :: (t ++ rest)) && noSpecB (t ++ rest))
        from rfl,
      Bool.and_eq_true]
    exact ⟨noSpecAt_cons c _ (ht c (List.mem_cons_self c t)),
      ih (fun d hd => ht d (List.mem_cons_of_mem c hd))⟩

/-- A concatenation of the four placeholders contains no printf-style
specifier. -/
theorem placeholder_noSpecB : ∀ (fuel : Nat) (cs : List Char),
    isPlaceholderConcatAux fuel cs = true → noSpecB cs = true := by
  intro fuel
  induction fuel with
  | zero =>
    intro cs h
    rw [show isPlaceholderConcatAux 0 cs = cs.isEmpty from rfl, List.isEmpty_iff] at h
    subst h
    decide
  | succ fuel ih =>
    intro cs h
    rw [show isPlaceholderConcatAux (fuel + 1) cs =
        (cs.isEmpty || ([intRepl, strRepl, uintRepl, floatRepl].any fun t =>
          beginsWith t cs && isPlaceholderConcatAux fuel (cs.drop t.length))) from rfl,
      Bool.or_eq_true] at h
    rcases h with h | h
    · rw [List.isEmpty_iff] at h
      subst h
      decide
    · rw [List.any_eq_true] at h
      obtain ⟨t, ht, hb⟩ := h
      rw [Bool.and_eq_true] at hb
      obtain ⟨hbw, hrec⟩ := hb
      rw [beginsWith_append t cs hbw]
      refine noSpecB_append t _ ?_ (ih _ hrec)
      fin_cases ht <;> decide

/-- C7 (amended): `clean_response_format` is the identity on every NON-EMPTY
string that is a concatenation of the placeholders `{int}`, `{str}`, `{uint}`,
`{float}` (such a string contains no printf-style `%` specifier), so on these
strings applying the substitution twice equals applying it once; the empty
string, by contrast, is mapped to `None` (see the counterexample). -/
theorem clean_response_format_idempotent_on_normalized (s : List Char)
    (h : isPlaceholderConcat s = true) (hne : s ≠ []) :
    clean_response_format (some s) = some s ∧
    clean_response_format (clean_response_format (some s)) =
      clean_response_format (some s) := by
  have h1 := clean_response_format_fixed s
    (placeholder_noSpecB s.length s (by rwa [isPlaceholderConcat] at h)) hne
  exact ⟨h1, by rw [h1, h1]⟩

/-- Witness for C7 at the concrete normalized string `{int}{str}`. -/
theorem clean_response_format_idempotent_on_normalized_witness :
    isPlaceholderConcat (("\x7bint\x7d\x7bstr\x7d").toList) = true ∧
    (("\x7bint\x7d\x7bstr\x7d").toList ≠ ([] : List Char)) ∧
    clean_response_format (some (("\x7bint\x7d\x7bstr\x7d").toList)) =
      some (("\x7bint\x7d\x7bstr\x7d").toList) :=
  ⟨by decide, by decide,
    (clean_response_format_idempotent_on_normalized _ (by decide) (by decide)).1⟩

/-- Counterexample for C7 as stated: the empty string is (vacuously) a
concatenation of placeholders, yet `clean_response_format` does not return it
unchanged — it maps it to `None`. -/
theorem clean_response_format_empty_cex :
    isPlaceholderConcat ([] : List Char) = true ∧
    clean_response_format (some ([] : List Char)) ≠ some ([] : List Char) := by
  constructor
  · decide
  · decide

/-! ## `parse_prefs_struct` on missing aggregates (claim C9) -/

/-- C9: when the `struct NodePrefs` declaration is not found in the header
text, `parse_prefs_struct` returns the empty mapping (no error is signalled;
the function is total). -/
theorem parse_prefs_struct_missing_struct_empty (src : List Char)
    (h : structSearch src = none) : parse_prefs_struct src = [] := by
  unfold parse_prefs_struct
  rw [h]

/-- Witness for C9 at a concrete header without a `NodePrefs` aggregate. -/
theorem parse_prefs_struct_missing_struct_empty_witness :
    structSearch (("struct OtherPrefs \x7b int x; \x7d").toList) = none ∧
    parse_prefs_struct (("struct OtherPrefs \x7b int x; \x7d").toList) = [] :=
  ⟨by decide, parse_prefs_struct_missing_struct_empty _ (by decide)⟩

/-! ## Empty reply templates (claim C10) -/

/-- C10 (amended): `clean_response_format` maps the empty string, like absent
input, to `None`; and a command-token match ALL of whose reply-construction
captures in the lookahead window are empty yields `response_format = None`
(an empty template alone is indistinguishable from no reply call).  A later
non-empty capture, however, overrides an earlier empty one (see the
counterexample). -/
theorem mkCommand_all_empty_templates_none (lines : List (List Char)) (i : Nat)
    (inGet inSet serialCtx : Bool) (v : CmdVar) (cmdStr : List Char) (cmdLen : Nat)
    (h : ∀ cap ∈ (((lines.drop i).take 15).map replyCaps).flatten, cap = ([] : List Char)) :
    (mkCommand lines i inGet inSet serialCtx v cmdStr cmdLen).response_format = none ∧
    clean_response_format (some ([] : List Char)) = none := by
  refine ⟨?_, rfl⟩
  simp only [mkCommand]
  rw [lookahead_fmt]
  unfold firstReplyFmt
  have hfil : ((((lines.drop i).take 15).map replyCaps).flatten).filter
      (fun c => !c.isEmpty) = [] := by
    rw [List.filter_eq_nil_iff]
    intro a ha
    rw [h a ha]
    decide
  rw [hfil]
  cases hemp : ((((lines.drop i).take 15).map replyCaps).flatten).isEmpty <;>
    simp [hemp, clean_response_format]

/-- Witness for C10 at a concrete input whose only reply call carries an empty
template. -/
theorem mkCommand_all_empty_templates_none_witness :
    (∀ cap ∈ ((((splitOnNl ("memcmp(command, \"bar\", 3)\nsprintf(reply, \"\");").toList).drop 0).take 15).map replyCaps).flatten,
      cap = ([] : List Char)) ∧
    (mkCommand (splitOnNl ("memcmp(command, \"bar\", 3)\nsprintf(reply, \"\");").toList)
      0 false false false CmdVar.command (("bar").toList) 3).response_format = none :=
  ⟨by decide,
    (mkCommand_all_empty_templates_none
      (splitOnNl ("memcmp(command, \"bar\", 3)\nsprintf(reply, \"\");").toList)
      0 false false false CmdVar.command (("bar").toList) 3 (by decide)).1⟩

/-! ## Idempotence of the patch transformation (claim C8) -/

/-- Content satisfying all patch guards is a fixed point of `patchContent`:
every patch is skipped. -/
theorem patchContent_guarded_fixed (c : List Char) (h : patchGuards c = true) :
    patchContent c = c := by
  unfold patchGuards at h
  simp only [Bool.and_eq_true, Bool.not_eq_true'] at h
  obtain ⟨⟨⟨⟨⟨⟨⟨⟨h1, h2⟩, h3⟩, h4⟩, h5⟩, h6⟩, h7⟩, h8⟩, h9⟩ := h
  unfold patchContent
  rw [show patch1 c = c from by unfold patch1; rw [if_pos h1],
    show patch2 c = c from by unfold patch2; rw [if_pos h2],
    show patch3 c = c from by unfold patch3; rw [if_neg (by simp [h3])],
    show patch4 c = c from by unfold patch4; rw [if_neg (by simp [h4])],
    show patch5 c = c from by unfold patch5; rw [if_neg (by simp [h5])],
    show patch6 c = c from by unfold patch6; rw [if_neg (by simp [h6])],
    show patch7 c = c from by unfold patch7; rw [if_neg (by simp [h7])],
    show patch8 c = c from by unfold patch8; rw [if_pos h8],
    show patch9 c = c from by
      unfold patch9
      split
      · rfl
      · next hcond => exact absurd h9 hcond]

/-- C8 (amended): the patch transformation is NOT idempotent on every input
text (see the counterexample), but a second application makes no changes
whenever the first application's output satisfies all the patch guards — the
four inserted markers present and the five replaced old-code blocks absent —
which is how the script behaves on the upstream `mesh_cli.py` layout, where
the `logger = ` assignment precedes the log-command handler. -/
theorem patchContent_second_run_noop (c : List Char)
    (h : patchGuards (patchContent c) = true) :
    patchContent (patchContent c) = patchContent c :=
  patchContent_guarded_fixed (patchContent c) h

set_option maxRecDepth 8000 in
set_option maxHeartbeats 16000000 in
/-- Witness for C8 (amended) at concrete content carrying all four markers. -/
theorem patchContent_second_run_noop_witness :
    patchGuards (patchContent (("import subprocess\n_tempradio_task\ncommand == \"board\"\ndef _cmd_stats_packets\n").toList)) = true ∧
    patchContent (patchContent (("import subprocess\n_tempradio_task\ncommand == \"board\"\ndef _cmd_stats_packets\n").toList)) =
      patchContent (("import subprocess\n_tempradio_task\ncommand == \"board\"\ndef _cmd_stats_packets\n").toList) :=
  ⟨by decide, patchContent_second_run_noop _ (by decide)⟩

set_option maxRecDepth 8000 in
set_option maxHeartbeats 64000000 in
theorem patchCex_run1_eq : patchContent patchCexInput = patchCexRun1 :=
  (eqList_iff _ _).mp (by decide)

set_option maxRecDepth 8000 in
set_option maxHeartbeats 64000000 in
theorem patchCex_run1_guard :
    containsSub patchCexRun1 (("import subprocess").toList) = false := by decide

set_option maxRecDepth 8000 in
set_option maxHeartbeats 64000000 in
theorem patchCex_pos_eq : pyFind patchCexRun1 (("\nlogger = ").toList) = (3349 : Int) := by
  decide

set_option maxRecDepth 8000 in
set_option maxHeartbeats 64000000 in
theorem patchCex_take_eq : patchCexRun1.take 3349 = patchCexSec :=
  (eqList_iff _ _).mp (by decide)

set_option maxRecDepth 8000 in
set_option maxHeartbeats 64000000 in
theorem patchCex_drop_eq : patchCexRun1.drop 3349 = patchCexRest :=
  (eqList_iff _ _).mp (by decide)

set_option maxRecDepth 8000 in
set_option maxHeartbeats 64000000 in
theorem patchCex_sec_guard :
    containsSub patchCexSec (("import subprocess").toList) = false := by decide

set_option maxRecDepth 8000 in
set_option maxHeartbeats 64000000 in
theorem patchCex_rep_eq :
    pyReplace patchCexSec (("import time\n").toList)
      (("import time\nimport subprocess  # pymc_console: for systemctl commands\n").toList) =
      patchCexSecRep :=
  (eqList_iff _ _).mp (by decide)

set_option maxRecDepth 8000 in
set_option maxHeartbeats 64000000 in
theorem patchCex_app_eq : patchCexSecRep ++ patchCexRest = patchCexRun2 :=
  (eqList_iff _ _).mp (by decide)

theorem patchCex_patch1_eq : patch1 patchCexRun1 = patchCexRun2 := by
  rw [show patch1 patchCexRun1 =
      (if containsSub patchCexRun1 (("import subprocess").toList) then patchCexRun1 else
        (if pyFind patchCexRun1 (("\nlogger = ").toList) > 0 then
          (if containsSub (patchCexRun1.take (pyFind patchCexRun1 (("\nlogger = ").toList)).toNat)
              (("import subprocess").toList) then patchCexRun1
           else pyReplace (patchCexRun1.take (pyFind patchCexRun1 (("\nlogger = ").toList)).toNat)
              (("import time\n").toList)
              (("import time\nimport subprocess  # pymc_console: for systemctl commands\n").toList)
              ++ patchCexRun1.drop (pyFind patchCexRun1 (("\nlogger = ").toList)).toNat)
         else patchCexRun1)) from rfl,
    if_neg (by simp only [patchCex_run1_guard]; decide), patchCex_pos_eq,
    if_pos (by decide : (3349 : Int) > 0),
    show ((3349 : Int)).toNat = 3349 from rfl,
    patchCex_take_eq, patchCex_drop_eq,
    if_neg (by simp only [patchCex_sec_guard]; decide),
    patchCex_rep_eq, patchCex_app_eq]

set_option maxRecDepth 8000 in
set_option maxHeartbeats 64000000 in
theorem patchCex_patch2_eq : patch2 patchCexRun2 = patchCexRun2 :=
  (eqList_iff _ _).mp (by decide)

set_option maxRecDepth 8000 in
set_option maxHeartbeats 64000000 in
theorem patchCex_patch3_eq : patch3 patchCexRun2 = patchCexRun2 :=
  (eqList_iff _ _).mp (by decide)

set_option maxRecDepth 8000 in
set_option maxHeartbeats 64000000 in
theorem patchCex_patch4_eq : patch4 patchCexRun2 = patchCexRun2 :=
  (eqList_iff _ _).mp (by decide)

set_option maxRecDepth 8000 in
set_option maxHeartbeats 64000000 in
theorem patchCex_patch5_eq : patch5 patchCexRun2 = patchCexRun2 :=
  (eqList_iff _ _).mp (by decide)

set_option maxRecDepth 8000 in
set_option maxHeartbeats 64000000 in
theorem patchCex_patch6_eq : patch6 patchCexRun2 = patchCexRun2 :=
  (eqList_iff _ _).mp (by decide)

set_option maxRecDepth 8000 in
set_option maxHeartbeats 64000000 in
theorem patchCex_patch7_eq : patch7 patchCexRun2 = patchCexRun2 :=
  (eqList_iff _ _).mp (by decide)

set_option maxRecDepth 8000 in
set_option maxHeartbeats 64000000 in
theorem patchCex_patch8_eq : patch8 patchCexRun2 = patchCexRun2 :=
  (eqList_iff _ _).mp (by decide)

set_option maxRecDepth 8000 in
set_option maxHeartbeats 64000000 in
theorem patchCex_patch9_eq : patch9 patchCexRun2 = patchCexRun2 :=
  (eqList_iff _ _).mp (by decide)

set_option maxRecDepth 8000 in
set_option maxHeartbeats 64000000 in
theorem patchCex_run_ne : patchCexRun2 ≠ patchCexRun1 := by
  intro h
  have hb : eqList patchCexRun2 patchCexRun1 = true := (eqList_iff _ _).mpr h
  rw [show eqList patchCexRun2 patchCexRun1 = false from by decide] at hb
  exact Bool.false_ne_true hb

/-- Counterexample for C8 as stated: on this input text the first run's
PATCH 9 inserts the stats methods (which contain an `import time` line)
before the text's `logger = ` marker, so the second run's PATCH 1 inserts the
subprocess import again — the transformation applied to its own output
changes the content. -/
theorem patchContent_not_idempotent :
    patchContent (patchContent patchCexInput) ≠ patchContent patchCexInput := by
  rw [patchCex_run1_eq,
    show patchContent patchCexRun1 =
      patch9 (patch8 (patch7 (patch6 (patch5 (patch4 (patch3 (patch2 (patch1 patchCexRun1))))))))
      from rfl,
    patchCex_patch1_eq, patchCex_patch2_eq, patchCex_patch3_eq, patchCex_patch4_eq,
    patchCex_patch5_eq, patchCex_patch6_eq, patchCex_patch7_eq, patchCex_patch8_eq,
    patchCex_patch9_eq]
  exact patchCex_run_ne

/-! ## Counterexamples on the extractor (claims C3, C4, C5, C10) -/

/-- Counterexample for C3 as stated: the matched literal `"clock sync"` has an
internal space but NO trailing space and no parameter is inferred, yet the
produced descriptor has `has_param = true` (the code tests `' ' in cmd_str`,
i.e. any space, not a trailing one). -/
theorem parse_has_param_internal_space :
    parseSource ("if (memcmp(command, \"clock sync\", 10) == 0)") =
      [⟨("clock sync").toList, ("system").toList, [], none,
        ("Sync clock from sender timestamp").toList, false, true⟩] ∧
    endsWithSpace (("clock sync").toList) = false := by
  decide

/-- Counterexample for C4 as stated: a single window line containing two
distinct conversion calls (`atof(` and `atoi(`) contributes only ONE parameter
entry (the float one), not one entry per call — the checks form an
`if`/`elif` chain. -/
theorem parse_params_one_per_line :
    parseSource ("memcmp(command, \"set x\", 6)\n  float v = atof(buf); int w = atoi(buf);") =
      [⟨("set x").toList, ("set").toList, [⟨("value").toList, ("float").toList⟩],
        none, ("Execute set x command").toList, false, true⟩] ∧
    containsSub (("  float v = atof(buf); int w = atoi(buf);").toList) (("atof(").toList) = true ∧
    containsSub (("  float v = atof(buf); int w = atoi(buf);").toList) (("atoi(").toList) = true := by
  decide

/-- Counterexample for C5 as stated: the first reply-format match in window
order carries the empty template, and a later `sprintf` match DOES overwrite
it (`not response_format` is true on the empty string), so the recorded
format is `DONE`, not the first match's template. -/
theorem parse_response_format_empty_overwritten :
    parseSource ("memcmp(command, \"aaa\", 3)\nsprintf(reply, \"\");\nsprintf(reply, \"DONE\");") =
      [⟨("aaa").toList, ("other").toList, [], some (("DONE").toList),
        ("Execute aaa command").toList, false, false⟩] ∧
    replySearch (("sprintf(reply, \"\");").toList) = some [] := by
  decide

/-- Counterexample for C10 as stated: the FIRST reply-construction call in the
window carries an empty template, yet the descriptor's `response_format` is
`some "OK"`, not `None` — the later non-empty `strcpy` capture overrides the
empty one. -/
theorem parse_empty_template_overridden :
    parseSource ("memcmp(command, \"bbb\", 3)\nsprintf(reply, \"\");\nstrcpy(reply, \"OK\");") =
      [⟨("bbb").toList, ("other").toList, [], some (("OK").toList),
        ("Execute bbb command").toList, false, false⟩] ∧
    replySearch (("sprintf(reply, \"\");").toList) = some [] := by
  decide
